import Mathlib

/-!
# pykd-ext bootstrapper (`sources/windbgext.cpp`): version resolution and command execution

A shallow embedding of the WinDbg extension commands `info`, `select`, `py` and `pip`
and of the helpers `getPythonVersion`, `getDefaultPythonVersion`, `handleException`
and `printString`.

Conventions of the embedding:

* C++ `int` / `long` values are `Int`.  The code only compares and copies version numbers,
  and increments the reentrancy counter by one and decrements it again; signed overflow is
  undefined in C++ and is not modelled.
* `throw std::exception(msg)` is `Except.error msg`; every exception thrown in the file is a
  `std::exception` (or the derived `std::invalid_argument`) identified by its `what()` text.
* `getInstalledInterpreter()` (declared in `pyinterpret.h`) is the registry query; its result
  is the parameter `interpreterList` of every function that calls it.
* `-1` is the "unspecified" version number used by `Options` and by the resolver.
-/

namespace PykdExt

/-- Descriptor of an installed interpreter (`InterpreterDesc` of `pyinterpret.h`):
the three fields the file reads. -/
structure InterpreterDesc where
  majorVersion : Int
  minorVersion : Int
  imagePath : String
  deriving DecidableEq, Repr

deriving instance DecidableEq for Except

/-- Text of the exception thrown by the resolver when nothing matches (lines 771 and 821). -/
def interpreterNotFoundMsg : String := "failed to find python interpreter\n"

/-! ## `getDefaultPythonVersion` (lines 776-822) -/

/-- First loop of `getDefaultPythonVersion` (lines 784-792): is some descriptor equal to the
process-wide default pair?  The loop returns from the function at the first hit. -/
def defaultIsInstalled (defaultMajorVersion defaultMinorVersion : Int) :
    List InterpreterDesc → Bool
  | [] => false
  | interpret :: rest =>
    if defaultMajorVersion = interpret.majorVersion ∧
        defaultMinorVersion = interpret.minorVersion then true
    else defaultIsInstalled defaultMajorVersion defaultMinorVersion rest

/-- State of the two scanning loops of `getDefaultPythonVersion`:
the out-parameters `majorVersion`, `minorVersion` and the local `found`. -/
structure ScanState where
  majorVersion : Int
  minorVersion : Int
  found : Bool
  deriving DecidableEq, Repr

/-- Loops at lines 794-802 (`wanted = 3`) and 807-815 (`wanted = 2`):
`if (wanted == interpret.majorVersion && minorVersion <= interpret.minorVersion)`. -/
def scanMajor (wanted : Int) : List InterpreterDesc → ScanState → ScanState
  | [], st => st
  | interpret :: rest, st =>
    if wanted = interpret.majorVersion ∧ st.minorVersion ≤ interpret.minorVersion then
      scanMajor wanted rest
        { majorVersion := interpret.majorVersion
          minorVersion := interpret.minorVersion
          found := true }
    else scanMajor wanted rest st

/-- Function `getDefaultPythonVersion`: the out-parameters are the returned pair. -/
def getDefaultPythonVersion (interpreterList : List InterpreterDesc)
    (defaultMajorVersion defaultMinorVersion : Int) : Except String (Int × Int) :=
  if defaultIsInstalled defaultMajorVersion defaultMinorVersion interpreterList then
    .ok (defaultMajorVersion, defaultMinorVersion)
  else
    let st3 := scanMajor 3 interpreterList
      { majorVersion := -1, minorVersion := -1, found := false }
    if st3.found then .ok (st3.majorVersion, st3.minorVersion)
    else
      let st2 := scanMajor 2 interpreterList st3
      if st2.found then .ok (st2.majorVersion, st2.minorVersion)
      else .error interpreterNotFoundMsg

/-! ## `getPythonVersion` (lines 750-772) -/

/-- Loop at lines 760-768; the state is `(minorVersion, found)`. -/
def matchLoop (majorVersion : Int) (anyMinorVersion : Bool) :
    List InterpreterDesc → Int × Bool → Int × Bool
  | [], st => st
  | interpret :: rest, (minorVersion, found) =>
    if majorVersion = interpret.majorVersion ∧
        (if anyMinorVersion then minorVersion < interpret.minorVersion
         else minorVersion = interpret.minorVersion) then
      matchLoop majorVersion anyMinorVersion rest (interpret.minorVersion, true)
    else matchLoop majorVersion anyMinorVersion rest (minorVersion, found)

/-- Function `getPythonVersion`: the in/out parameters `majorVersion`, `minorVersion` are the
arguments and the returned pair. -/
def getPythonVersion (interpreterList : List InterpreterDesc)
    (defaultMajorVersion defaultMinorVersion : Int)
    (majorVersion minorVersion : Int) : Except String (Int × Int) :=
  if majorVersion = -1 then
    getDefaultPythonVersion interpreterList defaultMajorVersion defaultMinorVersion
  else
    let anyMinorVersion : Bool := decide (minorVersion = -1)
    let r := matchLoop majorVersion anyMinorVersion interpreterList (minorVersion, false)
    if !r.2 then .error interpreterNotFoundMsg
    else .ok (majorVersion, r.1)

/-- Membership of a version pair in the installed list. -/
def Installed (interpreterList : List InterpreterDesc) (major minor : Int) : Prop :=
  ∃ d ∈ interpreterList, d.majorVersion = major ∧ d.minorVersion = minor

instance (l : List InterpreterDesc) (a b : Int) : Decidable (Installed l a b) := by
  unfold Installed; infer_instance

/-! ## Host, options and external collaborators -/

/-- Value of `DEBUG_OUTPUT_NORMAL` (DbgEng.h). -/
def DEBUG_OUTPUT_NORMAL : Nat := 0x00000001
/-- Value of `DEBUG_OUTPUT_ERROR` (DbgEng.h). -/
def DEBUG_OUTPUT_ERROR : Nat := 0x00000002
/-- Value of `DEBUG_OUTPUT_PROMPT` (DbgEng.h). -/
def DEBUG_OUTPUT_PROMPT : Nat := 0x00000010
/-- Value of `DEBUG_OUTPUT_STATUS` (line 341). -/
def DEBUG_OUTPUT_STATUS : Nat := 0x00000400
/-- Value of `DEBUG_ENGOPT_PREFER_DML` (DbgEng.h). -/
def DEBUG_ENGOPT_PREFER_DML : Nat := 0x00040000

/-- Output control of one `ControlledOutput` call. -/
inductive OutCtl where
  | DEBUG_OUTCTL_AMBIENT_DML
  | DEBUG_OUTCTL_AMBIENT_TEXT
  deriving DecidableEq, Repr

/-- Exception type objects of the runtime, compared by identity at line 640. -/
inductive PyType where
  | SystemExit
  | other (name : String)
  deriving DecidableEq, Repr

/-- The triple obtained by `PyErr_Fetch` followed by `PyErr_NormalizeException`
(lines 634-638); a null reference is `none`.  Value and traceback are opaque objects. -/
structure Fetched where
  errtype : Option PyType
  errvalue : Option String
  traceback : Option String
  deriving DecidableEq, Repr

/-- Parsed command line (`Options` of `arglist.h`): the fields the file reads. -/
structure Options where
  pyMajorVersion : Int
  pyMinorVersion : Int
  global : Bool
  runModule : Bool
  showHelp : Bool
  args : List String
  deriving DecidableEq, Repr

/-- Interactions of a command with the host and the runtime, in program order. -/
inductive Event where
  | parseOptions (args : String)
  | searchScript (name : String)
  | readFirstLine (file : String)
  | resolveVersion (majorVersion minorVersion : Int)
  | acquireInterpreter (global : Bool) (majorVersion minorVersion : Int)
  | releaseInterpreter
  | importMain
  | setSysObject (name : String)
  | startInterruptWatch
  | stopInterruptWatch
  | runString (code : String)
  | errClear
  | setArgv (argv : List String)
  | openScript (file : String)
  | runFile (file : String)
  | errFetch (fetched : Fetched)
  | dictClear
  | output (outctl : OutCtl) (mask : Nat) (text : String)
  deriving DecidableEq, Repr

/-- The external collaborators of the file, fixed for the duration of one command:
the registry, the host, the argument tokenizer, the file system and the runtime. -/
structure Env where
  /-- Result of `getInstalledInterpreter()`. -/
  interpreterList : List InterpreterDesc
  /-- Result of `isClassicWindbg()`. -/
  isClassicWindbg : Bool
  /-- Result of `GetEngineOptions`: `none` when the call fails. -/
  engineOptions : Option Nat
  /-- The four components `PYKDEXT_VERSION_*` of `version.h`. -/
  bootstrapperVersion : Nat × Nat × Nat × Nat
  /-- Whether the file is compiled with `_WIN64`. -/
  win64 : Bool
  /-- Constructor `Options(args)`; it may throw. -/
  parseOptions : String → Except String Options
  /-- `SearchPathA` for a script name with extension `.py`: the full path when found. -/
  searchPath : String → Option String
  /-- Opening a file and reading its first line with `std::getline`;
  `none` when the file cannot be opened. -/
  firstLine : String → Option String
  /-- Result of `isInterpreterLoaded(major, minor)`. -/
  isInterpreterLoaded : Int → Int → Bool
  /-- Constructor of `AutoInterpreter(global, major, minor)`; it may throw. -/
  acquire : Bool → Int → Int → Except String Unit
  /-- Result of `IsPy3()` once a runtime is acquired. -/
  isPy3 : Bool
  /-- Whether `_Py_fopen_obj` returns a non-null stream for the path. -/
  fopenObj : String → Bool
  /-- Whether `PyFile_FromString` returns a non-null object for the path. -/
  fileFromString : String → Bool
  /-- The error indicator of the runtime as `PyErr_Fetch` finds it, after the interactions
  made so far. -/
  errFetch : List Event → Fetched
  /-- Result of `traceback.format_exception(type, value, tb)` as a list of texts. -/
  formatException : PyType → Option String → Option String → List String

/-- Process-wide state: the statics `defaultMajorVersion`, `defaultMinorVersion` (lines 21-22)
and `recursiveGuard` (line 338), the output mask of the debug client, and the interactions
performed so far. -/
structure Host where
  defaultMajorVersion : Int
  defaultMinorVersion : Int
  recursiveGuard : Int
  outputMask : Nat
  trace : List Event
  deriving DecidableEq, Repr

/-! ## `printString` (lines 826-863) -/

/-- Replacement of every occurrence of one character, as `std::regex_replace` does for a
one-character pattern and a format without `$`. -/
def replaceAll (c : Char) (rep : List Char) : List Char → List Char
  | [] => []
  | x :: xs => if x = c then rep ++ replaceAll c rep xs else x :: replaceAll c rep xs

/-- Escaping at lines 841-843. -/
def escapeDml (line : List Char) : List Char :=
  replaceAll '>' "&gt;".toList (replaceAll '<' "&lt;".toList (replaceAll '&' "&amp;".toList line))

/-- Replacement of every occurrence of a text, scanning left to right without overlap;
`skip` counts the characters of a matched occurrence that are still to be passed over. -/
def replaceSubAux (pat rep : List Char) : Nat → List Char → List Char
  | _, [] => []
  | skip + 1, _ :: cs => replaceSubAux pat rep skip cs
  | 0, c :: cs =>
    if pat.isPrefixOf (c :: cs) then rep ++ replaceSubAux pat rep (pat.length - 1) cs
    else c :: replaceSubAux pat rep 0 cs

/-- Replacement of every occurrence of the text `pat` by `rep`. -/
def replaceSub (pat rep : List Char) (s : List Char) : List Char :=
  replaceSubAux pat rep 0 s

/-- The decoding that the escaping of `printString` is compared with: replace `&lt;` by `<`
and `&gt;` by `>`, then `&amp;` by `&`.  It is not part of `windbgext.cpp`; it is what a
reader of the markup applies. -/
def decodeDml (s : List Char) : List Char :=
  replaceSub "&amp;".toList "&".toList
    (replaceSub "&gt;".toList ">".toList (replaceSub "&lt;".toList "<".toList s))

/-- Character-wise encoding of a line. -/
def encodeWith (f : Char → List Char) : List Char → List Char
  | [] => []
  | c :: cs => f c ++ encodeWith f cs

/-- The text that lines 841-843 put in place of one character. -/
def escapeChar (c : Char) : List Char :=
  if c = '&' then "&amp;".toList
  else if c = '<' then "&lt;".toList
  else if c = '>' then "&gt;".toList
  else [c]

/-- The encoding left once `&lt;` is decoded. -/
def escapeCharAmpGt (c : Char) : List Char :=
  if c = '&' then "&amp;".toList
  else if c = '>' then "&gt;".toList
  else [c]

/-- The encoding left once `&lt;` and `&gt;` are decoded. -/
def escapeCharAmp (c : Char) : List Char :=
  if c = '&' then "&amp;".toList else [c]

/-- The lines read by the loop `while (sstr.good()) std::getline(sstr, line)`: the pieces
between line feeds, a final empty piece included. -/
def splitLines : List Char → List (List Char)
  | [] => [[]]
  | c :: cs =>
    if c = '\n' then [] :: splitLines cs
    else
      match splitLines cs with
      | [] => [[c]]
      | l :: ls => (c :: l) :: ls

/-- One iteration of the loop of `printString` (lines 839-860). -/
def printLine (env : Env) (prefer_dml : Bool) (mask : Nat) (line : List Char) : Event :=
  if env.isClassicWindbg ∧ prefer_dml ∧ mask = DEBUG_OUTPUT_ERROR then
    .output .DEBUG_OUTCTL_AMBIENT_DML mask
      ("<col fg=\"errfg\" bg=\"errbg\">" ++ String.mk (escapeDml line) ++ "</col>\n")
  else
    .output .DEBUG_OUTCTL_AMBIENT_TEXT mask (String.mk line ++ "\n")

/-- Function `printString`: the `ControlledOutput` calls it makes. -/
def printString (env : Env) (mask : Nat) (str : String) : List Event :=
  let prefer_dml : Bool :=
    match env.engineOptions with
    | some engOpts => decide (engOpts &&& DEBUG_ENGOPT_PREFER_DML ≠ 0)
    | none => false
  (splitLines str.toList).map (printLine env prefer_dml mask)

/-- Performing the output of `printString` on the host. -/
def Host.print (h : Host) (env : Env) (mask : Nat) (str : String) : Host :=
  { h with trace := h.trace ++ printString env mask str }

/-! ## `make_version`, `info` and `selectVersion` (lines 119-244) -/

/-- Effect of `std::setw(n) << std::left`: padding with blanks on the right. -/
def setwLeft (n : Nat) (s : String) : String :=
  s ++ String.mk (List.replicate (n - s.length) ' ')

/-- Function `make_version` (lines 119-135). -/
def make_version (env : Env) (major minor : Int) : String :=
  toString major ++ "." ++ toString minor ++ (if env.win64 then " x86-64" else " x86-32")

/-- One row of the table printed by `info` (lines 166-175). -/
def infoRow (env : Env) (defaultMajor defaultMinor : Int) (d : InterpreterDesc) : String :=
  (if defaultMajor = d.majorVersion ∧ defaultMinor = d.minorVersion then "* " else "  ")
    ++ setwLeft 14 (make_version env d.majorVersion d.minorVersion)
    ++ setwLeft 12
        (if env.isInterpreterLoaded d.majorVersion d.minorVersion then "Loaded" else "Unloaded")
    ++ d.imagePath ++ "\n"

/-- The text `info` accumulates in `sstr` (lines 147-183), or the exception thrown by
`getDefaultPythonVersion` at line 157. -/
def infoText (env : Env) (h : Host) : Except String String :=
  let banner :=
    "\n" ++ "pykd bootstrapper version: " ++ toString env.bootstrapperVersion.1 ++ "."
      ++ toString env.bootstrapperVersion.2.1 ++ "." ++ toString env.bootstrapperVersion.2.2.1
      ++ "." ++ toString env.bootstrapperVersion.2.2.2 ++ "\n"
  match getDefaultPythonVersion env.interpreterList
      h.defaultMajorVersion h.defaultMinorVersion with
  | .error e => .error e
  | .ok (defaultMajor, defaultMinor) =>
    let header :=
      "\n" ++ "Installed python:" ++ "\n" ++ "\n"
        ++ setwLeft 16 "Version:" ++ setwLeft 12 "Status: " ++ "Image:" ++ "\n"
        ++ "------------------------------------------------------------------------------"
        ++ "\n"
    let body :=
      if env.interpreterList.length > 0 then
        String.join (env.interpreterList.map (infoRow env defaultMajor defaultMinor))
      else "No python interpreter found" ++ "\n"
    .ok (banner ++ header ++ body ++ "\n")

/-- Command `info` (lines 140-193). -/
def info (env : Env) (h : Host) : Host :=
  match infoText env h with
  | .ok text => h.print env DEBUG_OUTPUT_NORMAL text
  | .error e => h.print env DEBUG_OUTPUT_ERROR e

/-- The message of lines 214-220 for unexpected positional arguments. -/
def unrecognizedVersionMsg (args : List String) : String :=
  "Unrecognized version string: \"" ++ String.join (args.map (· ++ " "))
    ++ "\". Expect \"!select -major.minor\""

/-- Command `selectVersion` (lines 200-244). -/
def selectVersion (env : Env) (args : String) (h : Host) : Host :=
  match env.parseOptions args with
  | .error e => h.print env DEBUG_OUTPUT_ERROR e
  | .ok opts =>
    let h :=
      if !opts.args.isEmpty then h.print env DEBUG_OUTPUT_NORMAL (unrecognizedVersionMsg opts.args)
      else h
    match getPythonVersion env.interpreterList h.defaultMajorVersion h.defaultMinorVersion
        opts.pyMajorVersion opts.pyMinorVersion with
    | .error e => h.print env DEBUG_OUTPUT_ERROR e
    | .ok (majorVersion, minorVersion) =>
      let h :=
        if opts.pyMajorVersion = majorVersion ∧ opts.pyMinorVersion = minorVersion then
          { h with defaultMajorVersion := majorVersion, defaultMinorVersion := minorVersion }
        else h
      h.print env DEBUG_OUTPUT_NORMAL
        ("Active Python Interpreter: " ++ toString h.defaultMajorVersion ++ "."
          ++ toString h.defaultMinorVersion)

/-! ## The version directive: `shebangRe` (line 336) and `atol` -/

/-- Characters matched by `\s`. -/
def isSpace (c : Char) : Bool :=
  c = ' ' ∨ c = '\t' ∨ c = '\n' ∨ c = Char.ofNat 11 ∨ c = Char.ofNat 12 ∨ c = '\r'

/-- Characters matched by `\d`. -/
def isDigit (c : Char) : Bool := decide ('0' ≤ c ∧ c ≤ '9')

/-- Result of `std::regex_match(firstline, mres, shebangRe)` for the pattern
`^#!\s*python([2,3])(?:\.(\d))?$`: `none` when the line does not match, else the text of
capture group 1 and, when it took part in the match, of capture group 2.
The bracket expression `[2,3]` holds the three characters `2`, `,` and `3`. -/
def shebangMatch (firstline : List Char) : Option (List Char × Option (List Char)) :=
  match firstline with
  | '#' :: '!' :: rest =>
    match rest.dropWhile isSpace with
    | 'p' :: 'y' :: 't' :: 'h' :: 'o' :: 'n' :: c :: tail =>
      if c = '2' ∨ c = ',' ∨ c = '3' then
        match tail with
        | [] => some ([c], none)
        | ['.', d] => if isDigit d then some ([c], some [d]) else none
        | _ => none
      else none
    | _ => none
  | _ => none

/-- Digit loop of `atol`: stops at the first character that is not a digit. -/
def atolDigits : List Char → Int → Int
  | [], acc => acc
  | c :: cs, acc =>
    if isDigit c then atolDigits cs (acc * 10 + ((c.toNat : Int) - 48)) else acc

/-- C library function `atol`: leading white space, an optional sign, then digits. -/
def atol (s : List Char) : Int :=
  match s.dropWhile isSpace with
  | '-' :: cs => - atolDigits cs 0
  | '+' :: cs => atolDigits cs 0
  | cs => atolDigits cs 0

/-- Lines 401-409: the requested version after looking at the first line of the script. -/
def versionFromFirstLine (firstline : String) (majorVersion minorVersion : Int) : Int × Int :=
  match shebangMatch firstline.toList with
  | some (g1, g2) =>
    (atol g1,
      match g2 with
      | some s => atol s
      | none => minorVersion)
  | none => (majorVersion, minorVersion)

/-! ## `handleException` (lines 632-670) -/

/-- Function `handleException`, applied to the fetched and normalized error triple. -/
def handleException (env : Env) (f : Fetched) : Except String Unit :=
  match f.errtype with
  | some errtype =>
    if errtype ≠ PyType.SystemExit then
      .error ("\n" ++ "\n"
        ++ String.join ((env.formatException errtype f.errvalue f.traceback).map (· ++ "\n")))
    else .ok ()
  | none => .ok ()

/-! ## Command `py` (lines 347-537) -/

/-- The usage text `printUsageMsg` (lines 248-295). -/
def printUsageMsg : String :=
  "\n" ++
  "usage:\n" ++
  "\n" ++
  "!help\n" ++
  "\tprint this text\n" ++
  "\n" ++
  "!info\n" ++
  "\tlist installed python interpreters\n" ++
  "\n" ++
  "!select version\n" ++
  "\tchange default version of a python interpreter\n" ++
  "\n" ++
  "!py [version] [options] [file]\n" ++
  "\trun python script or REPL\n" ++
  "\n" ++
  "\tVersion:\n" ++
  "\t-2           : use Python2\n" ++
  "\t-2.x         : use Python2.x\n" ++
  "\t-3           : use Python3\n" ++
  "\t-3.x         : use Python3.x\n" ++
  "\n" ++
  "\tOptions:\n" ++
  "\t-g --global  : run code in the common namespace\n" ++
  "\t-l --local   : run code in the isolated namespace\n" ++
  "\t-m --module  : run module as the __main__ module ( see the python command line option -m )\n" ++
  "\n" ++
  "\tcommand samples:\n" ++
  "\t\"!py\"                          : run REPL\n" ++
  "\t\"!py --local\"                  : run REPL in the isolated namespace\n" ++
  "\t\"!py -g script.py 10 \"string\"\" : run a script file with an argument in the commom namespace\n" ++
  "\t\"!py -m module_name\" : run a named module as the __main__\n" ++
  "\n" ++
  "!pip [version] [args]\n" ++
  "\trun pip package manager\n" ++
  "\n" ++
  "\tVersion:\n" ++
  "\t-2           : use Python2\n" ++
  "\t-2.x         : use Python2.x\n" ++
  "\t-3           : use Python3\n" ++
  "\t-3.x         : use Python3.x\n" ++
  "\n" ++
  "\tpip command samples:\n" ++
  "\t\"pip list\"                   : show all installed packagies\n" ++
  "\t\"pip install pykd\"           : install pykd\n" ++
  "\t\"pip install --upgrade pykd\" : upgrade pykd to the latest version\n" ++
  "\t\"pip show pykd\"              : show info about pykd package\n"

/-- Text of the exception at line 366. -/
def pyRecursiveMsg : String := "can not run !py command recursive\n"

/-- Text of the exception at line 553. -/
def pipRecursiveMsg : String := "can not run !pip command recursive\n"

/-- Function `getScriptFileName` (lines 711-746): empty when `SearchPathA` finds nothing. -/
def getScriptFileName (env : Env) (scriptName : String) : String :=
  match env.searchPath scriptName with
  | none => ""
  | some path => path

/-- Lines 376-389 of `py`: the script file name, or the script-not-found exception,
with the interactions made. -/
def pyScriptFile (env : Env) (opts : Options) : List Event × Except String String :=
  if opts.args.length > 0 ∧ !opts.runModule then
    let name := opts.args.headD ""
    let scriptFileName := getScriptFileName env name
    if scriptFileName.isEmpty then ([.searchScript name], .error ("script not found: " ++ name))
    else ([.searchScript name], .ok scriptFileName)
  else ([], .ok "")

/-- Lines 391-411 of `py`: the version handed to the resolver, with the interactions made. -/
def pyRequestedVersion (env : Env) (opts : Options) (scriptFileName : String) :
    List Event × (Int × Int) :=
  if !opts.runModule ∧ opts.pyMajorVersion = -1 ∧ opts.pyMinorVersion = -1 then
    match env.firstLine scriptFileName with
    | some firstline =>
      ([.readFirstLine scriptFileName],
        versionFromFirstLine firstline opts.pyMajorVersion opts.pyMinorVersion)
    | none => ([.readFirstLine scriptFileName], (opts.pyMajorVersion, opts.pyMinorVersion))
  else ([], (opts.pyMajorVersion, opts.pyMinorVersion))

/-- Lines 431-520 of `py`: the dispatch to REPL, module or script execution, as the
interactions made and the exception thrown, if any. -/
def pyDispatch (env : Env) (opts : Options) (scriptFileName : String) (minorVersion : Int) :
    List Event × Except String Unit :=
  let setup : List Event := [.runString "import sys\nsys.setrecursionlimit(500)\n"]
  if opts.args.isEmpty then
    (setup ++ [.runString "import pykd\nfrom pykd import *\n", .errClear,
       .runString "import code\ncode.InteractiveConsole(globals()).interact()\n"], .ok ())
  else
    let setup := setup ++ [.setArgv (scriptFileName :: opts.args.tail)]
    if env.isPy3 then
      if opts.runModule then
        (setup ++ [.runString "import runpy\n",
           .runString ("runpy.run_module(\"" ++ opts.args.headD ""
             ++ "\", run_name='__main__',  alter_sys=True)" ++ "\n")], .ok ())
      else if 5 ≤ minorVersion ∧ minorVersion ≤ 13 then
        if !env.fopenObj scriptFileName then
          (setup ++ [.openScript scriptFileName], .error "Unable to open script\n")
        else (setup ++ [.openScript scriptFileName, .runFile scriptFileName], .ok ())
      else (setup, .error "Unsupported C API _Py_fopen_obj\n")
    else
      if opts.runModule then
        (setup ++ [.runString "import runpy\n",
           .runString ("runpy.run_module('" ++ opts.args.headD ""
             ++ "', run_name='__main__', alter_sys=True)" ++ "\n")], .ok ())
      else
        if !env.fileFromString scriptFileName then
          (setup ++ [.openScript scriptFileName], .error "script not found\n")
        else (setup ++ [.openScript scriptFileName, .runFile scriptFileName], .ok ())

/-- Lines 417-525 of `py`: what runs while the `AutoInterpreter` is alive, after the
interactions `before`. -/
def pyInScope (env : Env) (opts : Options) (scriptFileName : String) (minorVersion : Int)
    (before : List Event) : List Event × Except String Unit :=
  let bind : List Event := [.importMain, .setSysObject "stdout", .setSysObject "stderr",
    .setSysObject "stdin", .startInterruptWatch]
  match pyDispatch env opts scriptFileName minorVersion with
  | (run, .error e) => (bind ++ run, .error e)
  | (run, .ok ()) =>
    let fetched := env.errFetch (before ++ bind ++ run)
    match handleException env fetched with
    | .error e => (bind ++ run ++ [.errFetch fetched], .error e)
    | .ok () =>
      if !opts.global then (bind ++ run ++ [.errFetch fetched, .dictClear], .ok ())
      else (bind ++ run ++ [.errFetch fetched], .ok ())

/-- The `try` block of `py` (lines 363-526), entered after `++recursiveGuard`: the
interactions it adds and whether an exception reaches the handler at line 527.  The
destructors of `interruptWatch` and `autoInterpreter` run when their scope is left,
whichever way. -/
def pyTry (env : Env) (args : String) (h : Host) : List Event × Except String Unit :=
  if 1 < h.recursiveGuard then ([], .error pyRecursiveMsg)
  else
    match env.parseOptions args with
    | .error e => ([.parseOptions args], .error e)
    | .ok opts =>
      if opts.showHelp then ([.parseOptions args], .error printUsageMsg)
      else
        match pyScriptFile env opts with
        | (search, .error e) => (.parseOptions args :: search, .error e)
        | (search, .ok scriptFileName) =>
          match pyRequestedVersion env opts scriptFileName with
          | (read, (majorVersion, minorVersion)) =>
            let t := .parseOptions args :: search ++ read
              ++ [.resolveVersion majorVersion minorVersion]
            match getPythonVersion env.interpreterList h.defaultMajorVersion
                h.defaultMinorVersion majorVersion minorVersion with
            | .error e => (t, .error e)
            | .ok (majorVersion, minorVersion) =>
              let t := t ++ [.acquireInterpreter opts.global majorVersion minorVersion]
              match env.acquire opts.global majorVersion minorVersion with
              | .error e => (t, .error e)
              | .ok () =>
                match pyInScope env opts scriptFileName minorVersion (h.trace ++ t) with
                | (run, r) => (t ++ run ++ [.stopInterruptWatch, .releaseInterpreter], r)

/-- The handler `catch (std::exception &e)` shared by the commands: the interactions of the
`try` block are recorded and the text of a caught exception is printed at error severity. -/
def Host.catchAndPrint (h : Host) (env : Env) (r : List Event × Except String Unit) : Host :=
  match r with
  | (t, .ok ()) => { h with trace := h.trace ++ t }
  | (t, .error e) => { h with trace := h.trace ++ t ++ printString env DEBUG_OUTPUT_ERROR e }

/-- Command `py` (lines 347-537). -/
def py (env : Env) (args : String) (h : Host) : Host :=
  let oldMask := h.outputMask
  let mask := oldMask ||| DEBUG_OUTPUT_STATUS
  let mask := if env.isClassicWindbg then mask &&& (0xFFFFFFFF ^^^ DEBUG_OUTPUT_PROMPT) else mask
  let h := { h with outputMask := mask }
  let h := { h with recursiveGuard := h.recursiveGuard + 1 }
  let h := h.catchAndPrint env (pyTry env args h)
  let h := { h with outputMask := oldMask }
  { h with recursiveGuard := h.recursiveGuard - 1 }

/-! ## Command `pip` (lines 544-628) -/

/-- Lines 564-618 of `pip`: what runs while the `AutoInterpreter` is alive, after the
interactions `before`. -/
def pipInScope (env : Env) (opts : Options) (before : List Event) :
    List Event × Except String Unit :=
  let run : List Event :=
    [.setSysObject "stdout", .setSysObject "stderr", .setSysObject "stdin",
      .importMain, .setArgv ("pip" :: opts.args), .runString "import runpy\n",
      .runString
        (if env.isPy3 then
          "runpy.run_module('pip', run_name='__main__',  alter_sys=True)" ++ "\n"
        else "runpy.run_module('pip', run_name='__main__', alter_sys=True)" ++ "\n")]
  let fetched := env.errFetch (before ++ run)
  (run ++ [.errFetch fetched], handleException env fetched)

/-- The `try` block of `pip` (lines 550-619), entered after `++recursiveGuard`. -/
def pipTry (env : Env) (args : String) (h : Host) : List Event × Except String Unit :=
  if 1 < h.recursiveGuard then ([], .error pipRecursiveMsg)
  else
    match env.parseOptions args with
    | .error e => ([.parseOptions args], .error e)
    | .ok opts =>
      let t : List Event :=
        [.parseOptions args, .resolveVersion opts.pyMajorVersion opts.pyMinorVersion]
      match getPythonVersion env.interpreterList h.defaultMajorVersion h.defaultMinorVersion
          opts.pyMajorVersion opts.pyMinorVersion with
      | .error e => (t, .error e)
      | .ok (majorVersion, minorVersion) =>
        let t := t ++ [.acquireInterpreter true majorVersion minorVersion]
        match env.acquire true majorVersion minorVersion with
        | .error e => (t, .error e)
        | .ok () =>
          match pipInScope env opts (h.trace ++ t) with
          | (run, r) => (t ++ run ++ [.releaseInterpreter], r)

/-- Command `pip` (lines 544-628). -/
def pip (env : Env) (args : String) (h : Host) : Host :=
  let h := { h with recursiveGuard := h.recursiveGuard + 1 }
  let h := h.catchAndPrint env (pipTry env args h)
  { h with recursiveGuard := h.recursiveGuard - 1 }

/-- Whether an event is a `ControlledOutput` call. -/
def Event.isOutput : Event → Bool
  | .output _ _ _ => true
  | _ => false

/-- Whether an event is the `PyErr_Fetch` of `handleException`. -/
def Event.isErrFetch : Event → Bool
  | .errFetch _ => true
  | _ => false

/-- Events that are neither output calls nor error fetches. -/
def Plain (l : List Event) : Prop :=
  ∀ x ∈ l, x.isOutput = false ∧ ∀ f, x ≠ Event.errFetch f

/-! ## Command `help` (lines 303-318) and sessions -/

/-- Command `help`: one `ControlledOutput` call with the usage text. -/
def help (h : Host) : Host :=
  { h with trace := h.trace ++
      [.output .DEBUG_OUTCTL_AMBIENT_TEXT DEBUG_OUTPUT_NORMAL printUsageMsg] }

/-- The five commands exported to the debugger. -/
inductive Command where
  | info
  | selectVersion (args : String)
  | help
  | py (args : String)
  | pip (args : String)
  deriving DecidableEq, Repr

/-- Running one command; the collaborators are those in place when it is issued. -/
def Command.run (env : Env) : Command → Host → Host
  | .info, h => PykdExt.info env h
  | .selectVersion args, h => PykdExt.selectVersion env args h
  | .help, h => PykdExt.help h
  | .py args, h => PykdExt.py env args h
  | .pip args, h => PykdExt.pip env args h

/-- A session: commands issued one after the other, each with the registry, file system and
runtime of its time. -/
def runSession : List (Env × Command) → Host → Host
  | [], h => h
  | (env, c) :: rest, h => runSession rest (c.run env h)

/-- Whether a command is a `select`. -/
def Command.isSelect : Command → Bool
  | .selectVersion _ => true
  | _ => false

/-- Shorthand for building descriptors in examples. -/
def desc (major minor : Int) : InterpreterDesc :=
  { majorVersion := major, minorVersion := minor, imagePath := "" }

/-- A concrete set of collaborators for examples: the given registry, every command line
parsed to the given options, every script found under its own name with the given first
line, a runtime that loads and leaves the given error indicator. -/
def demoEnv (l : List InterpreterDesc) (opts : Options) (firstline : Option String)
    (fetched : Fetched) : Env :=
  { interpreterList := l
    isClassicWindbg := true
    engineOptions := some 0
    bootstrapperVersion := (2, 0, 0, 25)
    win64 := true
    parseOptions := fun _ => .ok opts
    searchPath := fun name => some name
    firstLine := fun _ => firstline
    isInterpreterLoaded := fun _ _ => false
    acquire := fun _ _ _ => .ok ()
    isPy3 := true
    fopenObj := fun _ => true
    fileFromString := fun _ => true
    errFetch := fun _ => fetched
    formatException := fun _ _ _ => ["Traceback (most recent call last):", "Error"] }

/-- Options with only a version request. -/
def versionOpts (major minor : Int) : Options :=
  { pyMajorVersion := major, pyMinorVersion := minor, global := false, runModule := false,
    showHelp := false, args := [] }

/-- An empty error indicator. -/
def noError : Fetched := { errtype := none, errvalue := none, traceback := none }

/-- A host at rest with the given default version. -/
def idleHost (major minor : Int) : Host :=
  { defaultMajorVersion := major, defaultMinorVersion := minor, recursiveGuard := 0,
    outputMask := 0x3F7, trace := [] }

/-- Options of `!py script.py` without a version. -/
def scriptOpts : Options := { versionOpts (-1) (-1) with args := ["script.py"] }

/-- The error indicator left by the interrupt bridge (`InterruptWatch::quit`, line 56). -/
def ctrlBreak : Fetched :=
  { errtype := some PyType.SystemExit, errvalue := some "CTRL+BREAK", traceback := none }

/-- The error indicator left by a script that raised `ValueError`. -/
def valueError : Fetched :=
  { errtype := some (PyType.other "ValueError"), errvalue := some "bad", traceback := some "tb" }

/-! ## Lemmas on the scanning loops -/

theorem defaultIsInstalled_iff (dM dm : Int) (l : List InterpreterDesc) :
    defaultIsInstalled dM dm l = true ↔ Installed l dM dm := by
  induction l with
  | nil => simp [defaultIsInstalled, Installed]
  | cons x xs ih =>
    unfold defaultIsInstalled
    by_cases hx : dM = x.majorVersion ∧ dm = x.minorVersion
    · rw [if_pos hx]
      exact ⟨fun _ => ⟨x, List.mem_cons_self _ _, hx.1.symm, hx.2.symm⟩, fun _ => rfl⟩
    · rw [if_neg hx, ih]
      unfold Installed
      constructor
      · rintro ⟨d, hd, h1, h2⟩
        exact ⟨d, List.mem_cons_of_mem _ hd, h1, h2⟩
      · rintro ⟨d, hd, h1, h2⟩
        rcases List.mem_cons.mp hd with rfl | hd
        · exact absurd ⟨h1.symm, h2.symm⟩ hx
        · exact ⟨d, hd, h1, h2⟩

theorem Installed.cons_of {l : List InterpreterDesc} {a b : Int} (x : InterpreterDesc)
    (h : Installed l a b) : Installed (x :: l) a b := by
  obtain ⟨d, hd, h1, h2⟩ := h
  exact ⟨d, List.mem_cons_of_mem _ hd, h1, h2⟩

theorem Installed.head (x : InterpreterDesc) (l : List InterpreterDesc) :
    Installed (x :: l) x.majorVersion x.minorVersion :=
  ⟨x, List.mem_cons_self _ _, rfl, rfl⟩

/-- Invariant of the loop of `getPythonVersion` when the minor is unspecified: the minor only
grows, ends above every installed minor of the major, and either nothing changed or the
result is an installed minor of the major. -/
theorem matchLoop_any_spec (M : Int) (l : List InterpreterDesc) (mv : Int) (found : Bool) :
    mv ≤ (matchLoop M true l (mv, found)).1 ∧
    (∀ d ∈ l, d.majorVersion = M → d.minorVersion ≤ (matchLoop M true l (mv, found)).1) ∧
    (matchLoop M true l (mv, found) = (mv, found) ∨
      ((matchLoop M true l (mv, found)).2 = true ∧
        Installed l M (matchLoop M true l (mv, found)).1)) := by
  induction l generalizing mv found with
  | nil => simp [matchLoop]
  | cons x xs ih =>
    unfold matchLoop
    by_cases hx : M = x.majorVersion ∧ mv < x.minorVersion
    · have hc : M = x.majorVersion ∧
          (if true = true then mv < x.minorVersion else mv = x.minorVersion) := by
        simpa using hx
      rw [if_pos hc]
      obtain ⟨h1, h2, h3⟩ := ih x.minorVersion true
      refine ⟨by omega, ?_, Or.inr ?_⟩
      · intro d hd hM
        rcases List.mem_cons.mp hd with rfl | hd
        · exact h1
        · exact h2 d hd hM
      · rcases h3 with h3 | ⟨h3, h4⟩
        · rw [h3]
          exact ⟨rfl, by simpa [hx.1] using Installed.head x xs⟩
        · exact ⟨h3, h4.cons_of x⟩
    · have hc : ¬ (M = x.majorVersion ∧
          (if true = true then mv < x.minorVersion else mv = x.minorVersion)) := by
        simpa using hx
      rw [if_neg hc]
      obtain ⟨h1, h2, h3⟩ := ih mv found
      refine ⟨h1, ?_, ?_⟩
      · intro d hd hM
        rcases List.mem_cons.mp hd with rfl | hd
        · have : ¬ mv < d.minorVersion := fun hlt => hx ⟨hM.symm, hlt⟩
          omega
        · exact h2 d hd hM
      · rcases h3 with h3 | ⟨h3, h4⟩
        · exact Or.inl h3
        · exact Or.inr ⟨h3, h4.cons_of x⟩

/-- Invariant of the loop of `getPythonVersion` when the minor is given: the minor never
changes, and `found` is set exactly when the pair is installed (or was set before). -/
theorem matchLoop_exact_spec (M : Int) (l : List InterpreterDesc) (mv : Int) (found : Bool) :
    (matchLoop M false l (mv, found)).1 = mv ∧
    ((matchLoop M false l (mv, found)).2 = true ↔ (found = true ∨ Installed l M mv)) := by
  induction l generalizing found with
  | nil => simp [matchLoop, Installed]
  | cons x xs ih =>
    unfold matchLoop
    by_cases hx : M = x.majorVersion ∧ mv = x.minorVersion
    · have hc : M = x.majorVersion ∧
          (if false = true then mv < x.minorVersion else mv = x.minorVersion) := by
        simpa using hx
      rw [if_pos hc, ← hx.2]
      obtain ⟨h1, h2⟩ := ih true
      refine ⟨h1, ?_⟩
      rw [h2]
      simp only [true_or, true_iff]
      exact Or.inr ⟨x, List.mem_cons_self _ _, hx.1.symm, hx.2.symm⟩
    · have hc : ¬ (M = x.majorVersion ∧
          (if false = true then mv < x.minorVersion else mv = x.minorVersion)) := by
        simpa using hx
      rw [if_neg hc]
      obtain ⟨h1, h2⟩ := ih found
      refine ⟨h1, ?_⟩
      rw [h2]
      constructor
      · rintro (h | h)
        · exact Or.inl h
        · exact Or.inr (h.cons_of x)
      · rintro (h | ⟨d, hd, e1, e2⟩)
        · exact Or.inl h
        · rcases List.mem_cons.mp hd with rfl | hd
          · exact absurd ⟨e1.symm, e2.symm⟩ hx
          · exact Or.inr ⟨d, hd, e1, e2⟩

/-- Invariant of the scanning loops of `getDefaultPythonVersion`. -/
theorem scanMajor_spec (w : Int) (l : List InterpreterDesc) (st : ScanState) :
    st.minorVersion ≤ (scanMajor w l st).minorVersion ∧
    (∀ d ∈ l, d.majorVersion = w → d.minorVersion ≤ (scanMajor w l st).minorVersion) ∧
    (scanMajor w l st = st ∨
      ((scanMajor w l st).found = true ∧ (scanMajor w l st).majorVersion = w ∧
        Installed l w (scanMajor w l st).minorVersion)) := by
  induction l generalizing st with
  | nil => simp [scanMajor]
  | cons x xs ih =>
    unfold scanMajor
    by_cases hx : w = x.majorVersion ∧ st.minorVersion ≤ x.minorVersion
    · rw [if_pos hx]
      obtain ⟨h1, h2, h3⟩ := ih ⟨x.majorVersion, x.minorVersion, true⟩
      simp only at h1
      refine ⟨by omega, ?_, Or.inr ?_⟩
      · intro d hd hM
        rcases List.mem_cons.mp hd with rfl | hd
        · exact h1
        · exact h2 d hd hM
      · rcases h3 with h3 | ⟨h3, h4, h5⟩
        · rw [h3]
          exact ⟨rfl, hx.1.symm, by simpa [hx.1] using Installed.head x xs⟩
        · exact ⟨h3, h4, h5.cons_of x⟩
    · rw [if_neg hx]
      obtain ⟨h1, h2, h3⟩ := ih st
      refine ⟨h1, ?_, ?_⟩
      · intro d hd hM
        rcases List.mem_cons.mp hd with rfl | hd
        · have : ¬ st.minorVersion ≤ d.minorVersion := fun hle => hx ⟨hM.symm, hle⟩
          omega
        · exact h2 d hd hM
      · rcases h3 with h3 | ⟨h3, h4, h5⟩
        · exact Or.inl h3
        · exact Or.inr ⟨h3, h4, h5.cons_of x⟩

/-- A descriptor of the wanted major at or above the running minor makes the scan succeed. -/
theorem scanMajor_found (w : Int) (l : List InterpreterDesc) (st : ScanState)
    (h : ∃ d ∈ l, d.majorVersion = w ∧ st.minorVersion ≤ d.minorVersion) :
    (scanMajor w l st).found = true ∧ (scanMajor w l st).majorVersion = w ∧
      Installed l w (scanMajor w l st).minorVersion := by
  obtain ⟨d, hd, hM, hle⟩ := h
  induction l generalizing st with
  | nil => simp at hd
  | cons x xs ih =>
    unfold scanMajor
    by_cases hx : w = x.majorVersion ∧ st.minorVersion ≤ x.minorVersion
    · rw [if_pos hx]
      obtain ⟨_, _, k3⟩ := scanMajor_spec w xs ⟨x.majorVersion, x.minorVersion, true⟩
      rcases k3 with k3 | ⟨k3, k4, k5⟩
      · rw [k3]
        exact ⟨rfl, hx.1.symm, by simpa [hx.1] using Installed.head x xs⟩
      · exact ⟨k3, k4, k5.cons_of x⟩
    · rw [if_neg hx]
      rcases List.mem_cons.mp hd with rfl | hd
      · exact absurd ⟨hM.symm, hle⟩ hx
      · obtain ⟨r1, r2, r3⟩ := ih st hd hle
        exact ⟨r1, r2, r3.cons_of x⟩

/-- Without a descriptor of the wanted major the scan leaves its state alone. -/
theorem scanMajor_none (w : Int) (l : List InterpreterDesc) (st : ScanState)
    (h : ∀ d ∈ l, d.majorVersion ≠ w) : scanMajor w l st = st := by
  induction l generalizing st with
  | nil => rfl
  | cons x xs ih =>
    unfold scanMajor
    have hx : ¬ (w = x.majorVersion ∧ st.minorVersion ≤ x.minorVersion) :=
      fun hc => h x (List.mem_cons_self _ _) hc.1.symm
    rw [if_neg hx]
    exact ih st (fun d hd => h d (List.mem_cons_of_mem _ hd))

/-! ## The resolver -/

/-- C1: with a major `M` requested and the minor unspecified, on any list that holds a
descriptor of major `M` with a non-negative minor, `getPythonVersion` succeeds with `(M, m)`
where `m` is an installed minor of `M` and no installed minor of `M` is larger, whatever the
order of the list. -/
theorem getPythonVersion_major_only_max (l : List InterpreterDesc) (dM dm M : Int)
    (hM : M ≠ -1) (h : ∃ d ∈ l, d.majorVersion = M ∧ 0 ≤ d.minorVersion) :
    ∃ m, getPythonVersion l dM dm M (-1) = .ok (M, m) ∧ Installed l M m ∧
      ∀ d ∈ l, d.majorVersion = M → d.minorVersion ≤ m := by
  obtain ⟨d, hd, hdM, hd0⟩ := h
  obtain ⟨_, h2, h3⟩ := matchLoop_any_spec M l (-1) false
  have hge : 0 ≤ (matchLoop M true l (-1, false)).1 := le_trans hd0 (h2 d hd hdM)
  rcases h3 with h3 | ⟨h3, h4⟩
  · rw [h3] at hge
    simp at hge
  · refine ⟨(matchLoop M true l (-1, false)).1, ?_, h4, h2⟩
    unfold getPythonVersion
    rw [if_neg hM]
    simp [h3]

/-- C1 at the list `3.8, 3.10, 3.9` of the specification. -/
theorem getPythonVersion_major_only_max_witness :
    ∃ m, getPythonVersion [desc 3 8, desc 3 10, desc 3 9] 2 7 3 (-1) = .ok (3, m) ∧
      Installed [desc 3 8, desc 3 10, desc 3 9] 3 m ∧
      ∀ d ∈ [desc 3 8, desc 3 10, desc 3 9], d.majorVersion = 3 → d.minorVersion ≤ m :=
  getPythonVersion_major_only_max [desc 3 8, desc 3 10, desc 3 9] 2 7 3 (by decide)
    ⟨desc 3 10, by decide, by decide, by decide⟩

/-- Outside the range of version numbers: on a list holding only a descriptor with major 3
and minor `-2`, `getDefaultPythonVersion` throws instead of returning `(3, -2)`; the scan
starts from the sentinel `-1` and skips smaller minors. -/
theorem getDefaultPythonVersion_below_sentinel :
    ¬ Installed [desc 3 (-2)] (-1) (-1) ∧
    (∃ d ∈ [desc 3 (-2)], d.majorVersion = 3) ∧
    getDefaultPythonVersion [desc 3 (-2)] (-1) (-1) ≠ .ok (3, -2) ∧
    getDefaultPythonVersion [desc 3 (-2)] (-1) (-1) = .error interpreterNotFoundMsg := by
  decide

/-- The cases of `getDefaultPythonVersion` relative to the sentinel: on every list whose
descriptors of major 3 and 2 have a minor of at least `-1`, `getDefaultPythonVersion`
returns the default pair if it is installed; otherwise 3 with
the largest installed minor of major 3 if there is a major-3 descriptor; otherwise 2 with the
largest installed minor of major 2 if there is a major-2 descriptor; otherwise it throws the
interpreter-not-found exception. -/
theorem getDefaultPythonVersion_spec (l : List InterpreterDesc) (dM dm : Int)
    (hmin : ∀ d ∈ l, d.majorVersion = 3 ∨ d.majorVersion = 2 → -1 ≤ d.minorVersion) :
    (Installed l dM dm → getDefaultPythonVersion l dM dm = .ok (dM, dm)) ∧
    (¬ Installed l dM dm → (∃ d ∈ l, d.majorVersion = 3) →
      ∃ m, getDefaultPythonVersion l dM dm = .ok (3, m) ∧ Installed l 3 m ∧
        ∀ d ∈ l, d.majorVersion = 3 → d.minorVersion ≤ m) ∧
    (¬ Installed l dM dm → (¬ ∃ d ∈ l, d.majorVersion = 3) → (∃ d ∈ l, d.majorVersion = 2) →
      ∃ m, getDefaultPythonVersion l dM dm = .ok (2, m) ∧ Installed l 2 m ∧
        ∀ d ∈ l, d.majorVersion = 2 → d.minorVersion ≤ m) ∧
    (¬ Installed l dM dm → (¬ ∃ d ∈ l, d.majorVersion = 3) → (¬ ∃ d ∈ l, d.majorVersion = 2) →
      getDefaultPythonVersion l dM dm = .error interpreterNotFoundMsg) := by
  refine ⟨?_, ?_, ?_, ?_⟩
  · intro hin
    unfold getDefaultPythonVersion
    rw [if_pos ((defaultIsInstalled_iff dM dm l).mpr hin)]
  · intro hin ⟨d, hd, hd3⟩
    have hdef : ¬ defaultIsInstalled dM dm l = true :=
      fun hc => hin ((defaultIsInstalled_iff dM dm l).mp hc)
    obtain ⟨f1, f2, f3⟩ := scanMajor_found 3 l ⟨-1, -1, false⟩
      ⟨d, hd, hd3, hmin d hd (Or.inl hd3)⟩
    refine ⟨_, ?_, f3, (scanMajor_spec 3 l ⟨-1, -1, false⟩).2.1⟩
    unfold getDefaultPythonVersion
    rw [if_neg hdef]
    simp only [f1, if_true, f2]
  · intro hin h3 ⟨d, hd, hd2⟩
    have hdef : ¬ defaultIsInstalled dM dm l = true :=
      fun hc => hin ((defaultIsInstalled_iff dM dm l).mp hc)
    have e3 : scanMajor 3 l ⟨-1, -1, false⟩ = ⟨-1, -1, false⟩ :=
      scanMajor_none 3 l _ (fun x hx hc => h3 ⟨x, hx, hc⟩)
    obtain ⟨f1, f2, f3⟩ := scanMajor_found 2 l ⟨-1, -1, false⟩
      ⟨d, hd, hd2, hmin d hd (Or.inr hd2)⟩
    refine ⟨_, ?_, f3, (scanMajor_spec 2 l ⟨-1, -1, false⟩).2.1⟩
    unfold getDefaultPythonVersion
    rw [if_neg hdef]
    simp only [e3, f1, if_true, f2, Bool.false_eq_true, if_false]
  · intro hin h3 h2
    have hdef : ¬ defaultIsInstalled dM dm l = true :=
      fun hc => hin ((defaultIsInstalled_iff dM dm l).mp hc)
    have e3 : scanMajor 3 l ⟨-1, -1, false⟩ = ⟨-1, -1, false⟩ :=
      scanMajor_none 3 l _ (fun x hx hc => h3 ⟨x, hx, hc⟩)
    have e2 : scanMajor 2 l ⟨-1, -1, false⟩ = ⟨-1, -1, false⟩ :=
      scanMajor_none 2 l _ (fun x hx hc => h2 ⟨x, hx, hc⟩)
    unfold getDefaultPythonVersion
    rw [if_neg hdef]
    simp only [e3, e2, Bool.false_eq_true, if_false]

/-- The cases of `getDefaultPythonVersion` at the list `2.7, 3.8, 3.10, 3.9` with the default
`3.7`, which is not installed. -/
theorem getDefaultPythonVersion_spec_witness :
    ∃ m, getDefaultPythonVersion [desc 2 7, desc 3 8, desc 3 10, desc 3 9] 3 7 = .ok (3, m) ∧
      Installed [desc 2 7, desc 3 8, desc 3 10, desc 3 9] 3 m ∧
      ∀ d ∈ [desc 2 7, desc 3 8, desc 3 10, desc 3 9],
        d.majorVersion = 3 → d.minorVersion ≤ m :=
  (getDefaultPythonVersion_spec [desc 2 7, desc 3 8, desc 3 10, desc 3 9] 3 7
    (by decide)).2.1 (by decide) ⟨desc 3 8, by decide, by decide⟩

/-- A resolution with no requested version (`majorVersion = -1`) never returns a pair that
is not installed and throws no other exception than interpreter-not-found, and it does
throw it on the empty list. -/
theorem getPythonVersion_unspecified (l : List InterpreterDesc) (dM dm minor : Int) :
    ((∃ M m, getPythonVersion l dM dm (-1) minor = .ok (M, m) ∧ Installed l M m) ∨
      getPythonVersion l dM dm (-1) minor = .error interpreterNotFoundMsg) ∧
    getPythonVersion [] dM dm (-1) minor = .error interpreterNotFoundMsg := by
  refine ⟨?_, by simp [getPythonVersion, getDefaultPythonVersion, defaultIsInstalled, scanMajor]⟩
  unfold getPythonVersion
  rw [if_pos rfl]
  unfold getDefaultPythonVersion
  by_cases hdef : defaultIsInstalled dM dm l = true
  · rw [if_pos hdef]
    exact Or.inl ⟨dM, dm, rfl, (defaultIsInstalled_iff dM dm l).mp hdef⟩
  · rw [if_neg hdef]
    obtain ⟨_, _, h3⟩ := scanMajor_spec 3 l ⟨-1, -1, false⟩
    rcases h3 with h3 | ⟨f1, f2, f3⟩
    · obtain ⟨_, _, h2⟩ := scanMajor_spec 2 l ⟨-1, -1, false⟩
      rcases h2 with h2 | ⟨g1, g2, g3⟩
      · right
        simp only [h3, h2, Bool.false_eq_true, if_false]
      · left
        refine ⟨2, _, ?_, g3⟩
        simp only [h3, g1, g2, if_true, Bool.false_eq_true, if_false]
    · left
      refine ⟨3, _, ?_, f3⟩
      simp only [f1, f2, if_true]

/-- C2: on every list of installed interpreters, whose minor version numbers are not
negative, and for every process-wide default `(dM, dm)`, `getDefaultPythonVersion` returns
`(dM, dm)` if the list contains it; otherwise 3 with the largest installed minor of major 3
if the list contains a major-3 descriptor; otherwise 2 with the largest installed minor of
major 2 if the list contains a major-2 descriptor; otherwise it throws the
interpreter-not-found exception. -/
theorem getDefaultPythonVersion_cases (l : List InterpreterDesc) (dM dm : Int)
    (hver : ∀ d ∈ l, 0 ≤ d.minorVersion) :
    (Installed l dM dm → getDefaultPythonVersion l dM dm = .ok (dM, dm)) ∧
    (¬ Installed l dM dm → (∃ d ∈ l, d.majorVersion = 3) →
      ∃ m, getDefaultPythonVersion l dM dm = .ok (3, m) ∧ Installed l 3 m ∧
        ∀ d ∈ l, d.majorVersion = 3 → d.minorVersion ≤ m) ∧
    (¬ Installed l dM dm → (¬ ∃ d ∈ l, d.majorVersion = 3) → (∃ d ∈ l, d.majorVersion = 2) →
      ∃ m, getDefaultPythonVersion l dM dm = .ok (2, m) ∧ Installed l 2 m ∧
        ∀ d ∈ l, d.majorVersion = 2 → d.minorVersion ≤ m) ∧
    (¬ Installed l dM dm → (¬ ∃ d ∈ l, d.majorVersion = 3) → (¬ ∃ d ∈ l, d.majorVersion = 2) →
      getDefaultPythonVersion l dM dm = .error interpreterNotFoundMsg) := by
  have hmin : ∀ d ∈ l, d.majorVersion = 3 ∨ d.majorVersion = 2 → -1 ≤ d.minorVersion := by
    intro d hd _
    have h0 := hver d hd
    omega
  exact getDefaultPythonVersion_spec l dM dm hmin

/-- C2 at the list `2.7, 3.8, 3.10, 3.9`: with the default `3.8` installed the default is
returned; with the default `3.7` not installed the largest minor of major 3 is; and on
`2.6, 2.7` with the same default the largest minor of major 2 is. -/
theorem getDefaultPythonVersion_cases_witness :
    getDefaultPythonVersion [desc 2 7, desc 3 8, desc 3 10, desc 3 9] 3 8 = .ok (3, 8) ∧
    (∃ m, getDefaultPythonVersion [desc 2 7, desc 3 8, desc 3 10, desc 3 9] 3 7 = .ok (3, m) ∧
      Installed [desc 2 7, desc 3 8, desc 3 10, desc 3 9] 3 m ∧
      ∀ d ∈ [desc 2 7, desc 3 8, desc 3 10, desc 3 9],
        d.majorVersion = 3 → d.minorVersion ≤ m) ∧
    (∃ m, getDefaultPythonVersion [desc 2 6, desc 2 7] 3 7 = .ok (2, m) ∧
      Installed [desc 2 6, desc 2 7] 2 m ∧
      ∀ d ∈ [desc 2 6, desc 2 7], d.majorVersion = 2 → d.minorVersion ≤ m) ∧
    getDefaultPythonVersion [desc 2 7, desc 3 8, desc 3 10, desc 3 9] 3 7 = .ok (3, 10) :=
  ⟨(getDefaultPythonVersion_cases [desc 2 7, desc 3 8, desc 3 10, desc 3 9] 3 8
      (by decide)).1 (by decide),
   (getDefaultPythonVersion_cases [desc 2 7, desc 3 8, desc 3 10, desc 3 9] 3 7
      (by decide)).2.1 (by decide) ⟨desc 3 8, by decide, by decide⟩,
   (getDefaultPythonVersion_cases [desc 2 6, desc 2 7] 3 7
      (by decide)).2.2.1 (by decide) (by decide) ⟨desc 2 6, by decide, by decide⟩,
   by decide⟩

/-- C3 fails as stated: the failure is not tied to the empty list.  With only an interpreter
4.0 installed (or only 1.5) the list is not empty and its version numbers are not negative,
yet a resolution with no requested version throws the interpreter-not-found exception; the
scans of `getDefaultPythonVersion` look for majors 3 and 2 only. -/
theorem getPythonVersion_unspecified_fails_nonempty :
    [desc 4 0] ≠ [] ∧ (∀ d ∈ [desc 4 0], 0 ≤ d.minorVersion) ∧
    getPythonVersion [desc 4 0] (-1) (-1) (-1) (-1) = .error interpreterNotFoundMsg ∧
    (¬ ∃ M m, getPythonVersion [desc 4 0] (-1) (-1) (-1) (-1) = .ok (M, m)) ∧
    getPythonVersion [desc 1 5] (-1) (-1) (-1) (-1) = .error interpreterNotFoundMsg := by
  refine ⟨by decide, by decide, by decide, ?_, by decide⟩
  rintro ⟨M, m, h⟩
  have he : getPythonVersion [desc 4 0] (-1) (-1) (-1) (-1)
      = .error interpreterNotFoundMsg := by decide
  rw [he] at h
  cases h

/-- C3 (amended): on every list of installed interpreters, whose minor version numbers are
not negative, a resolution with no requested version (`majorVersion = -1`) returns the
version of a descriptor of the list whenever the list contains the default pair or a
descriptor of major 3 or 2, and throws the interpreter-not-found exception otherwise, in
particular on the empty list. -/
theorem getPythonVersion_unspecified_exact (l : List InterpreterDesc) (dM dm minor : Int)
    (hver : ∀ d ∈ l, 0 ≤ d.minorVersion) :
    ((Installed l dM dm ∨ ∃ d ∈ l, d.majorVersion = 3 ∨ d.majorVersion = 2) →
      ∃ M m, getPythonVersion l dM dm (-1) minor = .ok (M, m) ∧ Installed l M m) ∧
    (¬ (Installed l dM dm ∨ ∃ d ∈ l, d.majorVersion = 3 ∨ d.majorVersion = 2) →
      getPythonVersion l dM dm (-1) minor = .error interpreterNotFoundMsg) ∧
    getPythonVersion [] dM dm (-1) minor = .error interpreterNotFoundMsg := by
  have hmin : ∀ d ∈ l, d.majorVersion = 3 ∨ d.majorVersion = 2 → -1 ≤ d.minorVersion := by
    intro d hd _
    have h0 := hver d hd
    omega
  obtain ⟨c1, c2, c3, c4⟩ := getDefaultPythonVersion_spec l dM dm hmin
  have hdel : getPythonVersion l dM dm (-1) minor = getDefaultPythonVersion l dM dm := by
    unfold getPythonVersion
    rw [if_pos rfl]
  refine ⟨?_, ?_, (getPythonVersion_unspecified [] dM dm minor).2⟩
  · intro hsome
    rw [hdel]
    by_cases hin : Installed l dM dm
    · exact ⟨dM, dm, c1 hin, hin⟩
    · by_cases h3 : ∃ d ∈ l, d.majorVersion = 3
      · obtain ⟨m, e, hi, _⟩ := c2 hin h3
        exact ⟨3, m, e, hi⟩
      · have h2 : ∃ d ∈ l, d.majorVersion = 2 := by
          rcases hsome with hd | ⟨d, hd, h32 | h32⟩
          · exact absurd hd hin
          · exact absurd ⟨d, hd, h32⟩ h3
          · exact ⟨d, hd, h32⟩
        obtain ⟨m, e, hi, _⟩ := c3 hin h3 h2
        exact ⟨2, m, e, hi⟩
  · intro hnone
    rw [hdel]
    refine c4 (fun hin => hnone (Or.inl hin)) ?_ ?_
    · rintro ⟨d, hd, h3⟩
      exact hnone (Or.inr ⟨d, hd, Or.inl h3⟩)
    · rintro ⟨d, hd, h2⟩
      exact hnone (Or.inr ⟨d, hd, Or.inr h2⟩)

/-- C3 (amended) at the list `2.7, 3.8, 3.10, 3.9` with the default `3.7`, which is not
installed: the resolution succeeds with an installed pair. -/
theorem getPythonVersion_unspecified_exact_witness :
    ∃ M m, getPythonVersion [desc 2 7, desc 3 8, desc 3 10, desc 3 9] 3 7 (-1) (-1)
        = .ok (M, m) ∧
      Installed [desc 2 7, desc 3 8, desc 3 10, desc 3 9] M m :=
  (getPythonVersion_unspecified_exact [desc 2 7, desc 3 8, desc 3 10, desc 3 9] 3 7 (-1)
    (by decide)).1 (Or.inr ⟨desc 3 8, by decide, Or.inl (by decide)⟩)

/-- With both numbers given the resolver answers by membership of the pair in the list. -/
theorem getPythonVersion_given_both (l : List InterpreterDesc) (dM dm M m : Int)
    (hM : M ≠ -1) (hm : m ≠ -1) :
    (Installed l M m → getPythonVersion l dM dm M m = .ok (M, m)) ∧
    (¬ Installed l M m → getPythonVersion l dM dm M m = .error interpreterNotFoundMsg) := by
  obtain ⟨h1, h2⟩ := matchLoop_exact_spec M l m false
  have hfound : (matchLoop M false l (m, false)).2 = true ↔ Installed l M m := by
    rw [h2]; simp
  have hdec : decide (m = -1) = false := by simp [hm]
  unfold getPythonVersion
  rw [if_neg hM]
  simp only [hdec]
  constructor
  · intro hin
    have hf := hfound.mpr hin
    simp [hf, h1]
  · intro hin
    have hf : (matchLoop M false l (m, false)).2 = false := by
      cases hb : (matchLoop M false l (m, false)).2
      · rfl
      · exact absurd (hfound.mp hb) hin
    simp [hf]

/-- C4: for a fully specified request `(M, m)`, `getPythonVersion` returns exactly `(M, m)`
when that pair is installed, throws the interpreter-not-found exception exactly when it is
not, and never returns any other pair. -/
theorem getPythonVersion_exact (l : List InterpreterDesc) (dM dm M m : Int)
    (hM : M ≠ -1) (hm : m ≠ -1) :
    (Installed l M m → getPythonVersion l dM dm M m = .ok (M, m)) ∧
    (getPythonVersion l dM dm M m = .error interpreterNotFoundMsg ↔ ¬ Installed l M m) ∧
    (∀ r, getPythonVersion l dM dm M m = .ok r → r = (M, m)) := by
  obtain ⟨hyes, hno⟩ := getPythonVersion_given_both l dM dm M m hM hm
  refine ⟨hyes, ⟨?_, hno⟩, ?_⟩
  · intro herr hin
    rw [hyes hin] at herr
    cases herr
  · intro r hr
    by_cases hin : Installed l M m
    · rw [hyes hin] at hr
      injection hr with hr
      exact hr.symm
    · rw [hno hin] at hr
      cases hr

/-- C4 at the request 2.7 against a list without a major-2 entry, and at 3.9 against a list
that holds 3.8, 3.9 and 3.10. -/
theorem getPythonVersion_exact_witness :
    getPythonVersion [desc 3 8, desc 3 10, desc 3 9] 3 8 2 7 = .error interpreterNotFoundMsg ∧
    getPythonVersion [desc 3 8, desc 3 10, desc 3 9] 3 8 3 9 = .ok (3, 9) :=
  ⟨(getPythonVersion_exact [desc 3 8, desc 3 10, desc 3 9] 3 8 2 7
      (by decide) (by decide)).2.1.mpr (by decide),
   (getPythonVersion_exact [desc 3 8, desc 3 10, desc 3 9] 3 8 3 9
      (by decide) (by decide)).1 (by decide)⟩

/-! ## `selectVersion` and the process-wide default -/

theorem Host.print_default (h : Host) (env : Env) (mask : Nat) (str : String) :
    (h.print env mask str).defaultMajorVersion = h.defaultMajorVersion ∧
    (h.print env mask str).defaultMinorVersion = h.defaultMinorVersion := ⟨rfl, rfl⟩

theorem Host.catchAndPrint_frame (h : Host) (env : Env) (r : List Event × Except String Unit) :
    (h.catchAndPrint env r).defaultMajorVersion = h.defaultMajorVersion ∧
    (h.catchAndPrint env r).defaultMinorVersion = h.defaultMinorVersion ∧
    (h.catchAndPrint env r).recursiveGuard = h.recursiveGuard ∧
    (h.catchAndPrint env r).outputMask = h.outputMask := by
  obtain ⟨t, r⟩ := r
  cases r <;> exact ⟨rfl, rfl, rfl, rfl⟩

/-- Every command other than `select` leaves the process-wide default alone. -/
theorem Command.run_default (env : Env) (c : Command) (h : Host) (hc : c.isSelect = false) :
    (c.run env h).defaultMajorVersion = h.defaultMajorVersion ∧
    (c.run env h).defaultMinorVersion = h.defaultMinorVersion := by
  cases c with
  | selectVersion args => simp [Command.isSelect] at hc
  | info =>
    simp only [Command.run, PykdExt.info]
    split <;> exact ⟨rfl, rfl⟩
  | help => exact ⟨rfl, rfl⟩
  | py args =>
    simp only [Command.run, PykdExt.py]
    refine ⟨?_, ?_⟩
    · exact (Host.catchAndPrint_frame _ env _).1
    · exact (Host.catchAndPrint_frame _ env _).2.1
  | pip args =>
    simp only [Command.run, PykdExt.pip]
    refine ⟨?_, ?_⟩
    · exact (Host.catchAndPrint_frame _ env _).1
    · exact (Host.catchAndPrint_frame _ env _).2.1

/-- A session without `select` leaves the process-wide default alone. -/
theorem runSession_default (cmds : List (Env × Command)) (h : Host)
    (hc : ∀ ec ∈ cmds, ec.2.isSelect = false) :
    (runSession cmds h).defaultMajorVersion = h.defaultMajorVersion ∧
    (runSession cmds h).defaultMinorVersion = h.defaultMinorVersion := by
  induction cmds generalizing h with
  | nil => exact ⟨rfl, rfl⟩
  | cons ec rest ih =>
    obtain ⟨env, c⟩ := ec
    have h1 := Command.run_default env c h (hc (env, c) (List.mem_cons_self _ _))
    have h2 := ih (c.run env h) (fun x hx => hc x (List.mem_cons_of_mem _ hx))
    simp only [runSession]
    exact ⟨h2.1.trans h1.1, h2.2.trans h1.2⟩

/-- A resolution without a requested version returns the default pair when it is installed. -/
theorem getPythonVersion_default_installed (l : List InterpreterDesc) (dM dm minor : Int)
    (h : Installed l dM dm) : getPythonVersion l dM dm (-1) minor = .ok (dM, dm) := by
  unfold getPythonVersion getDefaultPythonVersion
  rw [if_pos rfl, if_pos ((defaultIsInstalled_iff dM dm l).mpr h)]

/-- With the minor unspecified the loop of `getPythonVersion` either changes nothing or ends
on a strictly larger minor. -/
theorem matchLoop_any_strict (M : Int) (l : List InterpreterDesc) (mv : Int) (found : Bool) :
    matchLoop M true l (mv, found) = (mv, found) ∨ mv < (matchLoop M true l (mv, found)).1 := by
  induction l generalizing mv found with
  | nil => exact Or.inl rfl
  | cons x xs ih =>
    unfold matchLoop
    by_cases hx : M = x.majorVersion ∧ mv < x.minorVersion
    · have hc : M = x.majorVersion ∧
          (if true = true then mv < x.minorVersion else mv = x.minorVersion) := by
        simpa using hx
      rw [if_pos hc]
      have := (matchLoop_any_spec M xs x.minorVersion true).1
      exact Or.inr (by omega)
    · have hc : ¬ (M = x.majorVersion ∧
          (if true = true then mv < x.minorVersion else mv = x.minorVersion)) := by
        simpa using hx
      rw [if_neg hc]
      exact ih mv found

/-- The resolver never returns the request itself unless both numbers were given. -/
theorem getPythonVersion_echo (l : List InterpreterDesc) (dM dm M m : Int)
    (h : getPythonVersion l dM dm M m = .ok (M, m)) :
    (M ≠ -1 ∧ m ≠ -1) ∨ (M = dM ∧ m = dm) := by
  by_cases hM : M = -1
  · right
    subst hM
    unfold getPythonVersion getDefaultPythonVersion at h
    rw [if_pos rfl] at h
    by_cases hdef : defaultIsInstalled dM dm l = true
    · rw [if_pos hdef] at h
      injection h with h
      injection h with h1 h2
      exact ⟨h1.symm, h2.symm⟩
    · rw [if_neg hdef] at h
      exfalso
      obtain ⟨_, _, h3⟩ := scanMajor_spec 3 l ⟨-1, -1, false⟩
      rcases h3 with h3 | ⟨f1, f2, f3⟩
      · obtain ⟨_, _, h2⟩ := scanMajor_spec 2 l ⟨-1, -1, false⟩
        rcases h2 with h2 | ⟨g1, g2, g3⟩
        · simp [h3, h2] at h
        · simp [h3, g1, g2] at h
      · simp [f1, f2] at h
  · by_cases hm : m = -1
    · exfalso
      subst hm
      unfold getPythonVersion at h
      rw [if_neg hM] at h
      simp only [decide_True] at h
      rcases matchLoop_any_strict M l (-1) false with h3 | h3
      · simp [h3] at h
      · by_cases hf : (matchLoop M true l (-1, false)).2 = true
        · simp [hf] at h
          omega
        · simp [hf] at h
    · exact Or.inl ⟨hM, hm⟩

/-- What `selectVersion` does to the default: nothing, unless the options parse and the
resolver returns the requested pair itself, which then becomes the default. -/
theorem selectVersion_default_cases (env : Env) (args : String) (h : Host) :
    ((selectVersion env args h).defaultMajorVersion = h.defaultMajorVersion ∧
      (selectVersion env args h).defaultMinorVersion = h.defaultMinorVersion) ∨
    ∃ opts, env.parseOptions args = .ok opts ∧
      getPythonVersion env.interpreterList h.defaultMajorVersion h.defaultMinorVersion
        opts.pyMajorVersion opts.pyMinorVersion = .ok (opts.pyMajorVersion, opts.pyMinorVersion) ∧
      (selectVersion env args h).defaultMajorVersion = opts.pyMajorVersion ∧
      (selectVersion env args h).defaultMinorVersion = opts.pyMinorVersion := by
  unfold selectVersion
  cases hp : env.parseOptions args with
  | error e => exact Or.inl ⟨rfl, rfl⟩
  | ok opts =>
    simp only
    have hd : ∀ (b : Bool) (s : String),
        (if b = true then h.print env DEBUG_OUTPUT_NORMAL s else h).defaultMajorVersion
            = h.defaultMajorVersion ∧
        (if b = true then h.print env DEBUG_OUTPUT_NORMAL s else h).defaultMinorVersion
            = h.defaultMinorVersion := by
      intro b s
      cases b <;> exact ⟨rfl, rfl⟩
    obtain ⟨e1, e2⟩ := hd (!opts.args.isEmpty) (unrecognizedVersionMsg opts.args)
    rw [e1, e2]
    cases hr : getPythonVersion env.interpreterList h.defaultMajorVersion
        h.defaultMinorVersion opts.pyMajorVersion opts.pyMinorVersion with
    | error e => exact Or.inl ⟨e1, e2⟩
    | ok r =>
      obtain ⟨majorVersion, minorVersion⟩ := r
      simp only
      by_cases hc : opts.pyMajorVersion = majorVersion ∧ opts.pyMinorVersion = minorVersion
      · rw [if_pos hc]
        refine Or.inr ⟨opts, rfl, ?_, hc.1.symm, hc.2.symm⟩
        rw [hr, hc.1, hc.2]
      · rw [if_neg hc]
        exact Or.inl ⟨e1, e2⟩

/-- C5: after `selectVersion` is invoked with a fully specified version `M.m` that is
installed, the process-wide default is `(M, m)`; and after any further commands that are not
a `select` (`info`, `help`, `py`, `pip`, each with the registry of its time), every
resolution without a requested version against a list that contains `(M, m)` returns
`(M, m)`. -/
theorem selectVersion_sets_default (env : Env) (args : String) (h : Host) (opts : Options)
    (hparse : env.parseOptions args = .ok opts)
    (hM : opts.pyMajorVersion ≠ -1) (hm : opts.pyMinorVersion ≠ -1)
    (hin : Installed env.interpreterList opts.pyMajorVersion opts.pyMinorVersion) :
    (selectVersion env args h).defaultMajorVersion = opts.pyMajorVersion ∧
    (selectVersion env args h).defaultMinorVersion = opts.pyMinorVersion ∧
    ∀ cmds : List (Env × Command), (∀ ec ∈ cmds, ec.2.isSelect = false) →
      ∀ (l : List InterpreterDesc) (minor : Int),
        Installed l opts.pyMajorVersion opts.pyMinorVersion →
        getPythonVersion l
          (runSession cmds (selectVersion env args h)).defaultMajorVersion
          (runSession cmds (selectVersion env args h)).defaultMinorVersion (-1) minor
          = .ok (opts.pyMajorVersion, opts.pyMinorVersion) := by
  have hsel : (selectVersion env args h).defaultMajorVersion = opts.pyMajorVersion ∧
      (selectVersion env args h).defaultMinorVersion = opts.pyMinorVersion := by
    have hres := (getPythonVersion_given_both env.interpreterList h.defaultMajorVersion
      h.defaultMinorVersion opts.pyMajorVersion opts.pyMinorVersion hM hm).1 hin
    unfold selectVersion
    rw [hparse]
    simp only
    have hd : ∀ (b : Bool) (s : String),
        (if b = true then h.print env DEBUG_OUTPUT_NORMAL s else h).defaultMajorVersion
            = h.defaultMajorVersion ∧
        (if b = true then h.print env DEBUG_OUTPUT_NORMAL s else h).defaultMinorVersion
            = h.defaultMinorVersion := by
      intro b s
      cases b <;> exact ⟨rfl, rfl⟩
    obtain ⟨e1, e2⟩ := hd (!opts.args.isEmpty) (unrecognizedVersionMsg opts.args)
    rw [e1, e2, hres]
    simp only [and_self, if_true]
    exact ⟨rfl, rfl⟩
  refine ⟨hsel.1, hsel.2, ?_⟩
  intro cmds hc l minor hl
  obtain ⟨f1, f2⟩ := runSession_default cmds (selectVersion env args h) hc
  rw [f1, f2, hsel.1, hsel.2]
  exact getPythonVersion_default_installed l _ _ minor hl

/-- C5 at `select -3.9` with 3.8, 3.10 and 3.9 installed and 3.10 the default. -/
theorem selectVersion_sets_default_witness :
    (selectVersion (demoEnv [desc 3 8, desc 3 10, desc 3 9] (versionOpts 3 9) none noError)
      "-3.9" (idleHost 3 10)).defaultMajorVersion = 3 ∧
    (selectVersion (demoEnv [desc 3 8, desc 3 10, desc 3 9] (versionOpts 3 9) none noError)
      "-3.9" (idleHost 3 10)).defaultMinorVersion = 9 ∧
    ∀ cmds : List (Env × Command), (∀ ec ∈ cmds, ec.2.isSelect = false) →
      ∀ (l : List InterpreterDesc) (minor : Int), Installed l 3 9 →
        getPythonVersion l
          (runSession cmds (selectVersion
            (demoEnv [desc 3 8, desc 3 10, desc 3 9] (versionOpts 3 9) none noError)
            "-3.9" (idleHost 3 10))).defaultMajorVersion
          (runSession cmds (selectVersion
            (demoEnv [desc 3 8, desc 3 10, desc 3 9] (versionOpts 3 9) none noError)
            "-3.9" (idleHost 3 10))).defaultMinorVersion (-1) minor
          = .ok (3, 9) :=
  selectVersion_sets_default
    (demoEnv [desc 3 8, desc 3 10, desc 3 9] (versionOpts 3 9) none noError) "-3.9"
    (idleHost 3 10) (versionOpts 3 9) rfl (by decide) (by decide) (by decide)

/-- C6: `selectVersion` changes the process-wide default only when the options carry both a
major and a minor version and the resolver returns exactly that pair; when the command line
does not parse, or carries no major, or no minor, or a pair that is not installed, the
default after the command is the default before it. -/
theorem selectVersion_default_frame (env : Env) (args : String) (h : Host) :
    (((selectVersion env args h).defaultMajorVersion ≠ h.defaultMajorVersion ∨
        (selectVersion env args h).defaultMinorVersion ≠ h.defaultMinorVersion) →
      ∃ opts, env.parseOptions args = .ok opts ∧
        opts.pyMajorVersion ≠ -1 ∧ opts.pyMinorVersion ≠ -1 ∧
        getPythonVersion env.interpreterList h.defaultMajorVersion h.defaultMinorVersion
          opts.pyMajorVersion opts.pyMinorVersion
          = .ok (opts.pyMajorVersion, opts.pyMinorVersion)) ∧
    ((∀ opts, env.parseOptions args = .ok opts →
        opts.pyMajorVersion = -1 ∨ opts.pyMinorVersion = -1 ∨
          ¬ Installed env.interpreterList opts.pyMajorVersion opts.pyMinorVersion) →
      (selectVersion env args h).defaultMajorVersion = h.defaultMajorVersion ∧
      (selectVersion env args h).defaultMinorVersion = h.defaultMinorVersion) := by
  have key : ((selectVersion env args h).defaultMajorVersion = h.defaultMajorVersion ∧
      (selectVersion env args h).defaultMinorVersion = h.defaultMinorVersion) ∨
      ∃ opts, env.parseOptions args = .ok opts ∧
        opts.pyMajorVersion ≠ -1 ∧ opts.pyMinorVersion ≠ -1 ∧
        getPythonVersion env.interpreterList h.defaultMajorVersion h.defaultMinorVersion
          opts.pyMajorVersion opts.pyMinorVersion
          = .ok (opts.pyMajorVersion, opts.pyMinorVersion) := by
    rcases selectVersion_default_cases env args h with hs | ⟨opts, hp, hr, s1, s2⟩
    · exact Or.inl hs
    · rcases getPythonVersion_echo _ _ _ _ _ hr with ⟨hM, hm⟩ | ⟨hM, hm⟩
      · exact Or.inr ⟨opts, hp, hM, hm, hr⟩
      · exact Or.inl ⟨s1.trans hM, s2.trans hm⟩
  refine ⟨?_, ?_⟩
  · intro hne
    rcases key with hs | hx
    · rcases hne with hne | hne
      · exact absurd hs.1 hne
      · exact absurd hs.2 hne
    · exact hx
  · intro hall
    rcases key with hs | ⟨opts, hp, hM, hm, hr⟩
    · exact hs
    · exfalso
      rcases hall opts hp with h1 | h1 | h1
      · exact hM h1
      · exact hm h1
      · have hno := (getPythonVersion_given_both env.interpreterList h.defaultMajorVersion
          h.defaultMinorVersion opts.pyMajorVersion opts.pyMinorVersion hM hm).2 h1
        rw [hr] at hno
        cases hno

/-- C6 at `select -3` (major only) with 3.8, 3.10 and 3.9 installed and 3.8 the default:
the default stays 3.8. -/
theorem selectVersion_default_frame_witness :
    (selectVersion (demoEnv [desc 3 8, desc 3 10, desc 3 9] (versionOpts 3 (-1)) none noError)
      "-3" (idleHost 3 8)).defaultMajorVersion = 3 ∧
    (selectVersion (demoEnv [desc 3 8, desc 3 10, desc 3 9] (versionOpts 3 (-1)) none noError)
      "-3" (idleHost 3 8)).defaultMinorVersion = 8 :=
  (selectVersion_default_frame
    (demoEnv [desc 3 8, desc 3 10, desc 3 9] (versionOpts 3 (-1)) none noError) "-3"
    (idleHost 3 8)).2
    (fun opts hp => by
      have : opts = versionOpts 3 (-1) := by
        simp only [demoEnv] at hp
        injection hp with hp
        exact hp.symm
      subst this
      exact Or.inr (Or.inl rfl))

/-! ## The reentrancy guard and the output mask -/

/-- Every event made by `printString` is a `ControlledOutput` call with the given mask. -/
theorem printString_events (env : Env) (mask : Nat) (str : String) :
    ∀ e ∈ printString env mask str, ∃ ctl text, e = Event.output ctl mask text := by
  intro e he
  unfold printString at he
  simp only [List.mem_map] at he
  obtain ⟨line, _, rfl⟩ := he
  unfold printLine
  split
  · exact ⟨_, _, rfl⟩
  · exact ⟨_, _, rfl⟩

/-- C7: when the reentrancy counter is already at least 1 at entry, `py` and `pip` do
nothing but print the recursion-denied message at error severity (the events they add are
exactly the output calls of that message, so no option parsing, version resolution, runtime
acquisition or stream rebinding takes place), and the counter, the output mask and the
default version are at return what they were at entry. -/
theorem nested_invocation_denied (env : Env) (args : String) (h : Host)
    (hg : 1 ≤ h.recursiveGuard) :
    (py env args h).trace = h.trace ++ printString env DEBUG_OUTPUT_ERROR pyRecursiveMsg ∧
    (py env args h).recursiveGuard = h.recursiveGuard ∧
    (pip env args h).trace = h.trace ++ printString env DEBUG_OUTPUT_ERROR pipRecursiveMsg ∧
    (pip env args h).recursiveGuard = h.recursiveGuard ∧
    (∀ msg, ∀ e ∈ printString env DEBUG_OUTPUT_ERROR msg,
      ∃ ctl text, e = Event.output ctl DEBUG_OUTPUT_ERROR text) ∧
    (py env args h).outputMask = h.outputMask ∧
    (pip env args h).outputMask = h.outputMask := by
  have hlt : 1 < h.recursiveGuard + 1 := by omega
  refine ⟨?_, ?_, ?_, ?_, fun msg => printString_events env _ msg, ?_, ?_⟩
  · simp [py, pyTry, hlt, Host.catchAndPrint]
  · simp [py, Host.catchAndPrint_frame]
  · simp [pip, pipTry, hlt, Host.catchAndPrint]
  · simp [pip, Host.catchAndPrint_frame]
  · simp [py]
  · simp [pip, Host.catchAndPrint_frame]

/-- C7 at a `py` / `pip` issued while another command is running (counter 1). -/
theorem nested_invocation_denied_witness :
    (py (demoEnv [desc 3 9] (versionOpts (-1) (-1)) none noError) ""
        { idleHost 3 9 with recursiveGuard := 1 }).trace
      = [.output .DEBUG_OUTCTL_AMBIENT_TEXT DEBUG_OUTPUT_ERROR
          "can not run !py command recursive\n",
         .output .DEBUG_OUTCTL_AMBIENT_TEXT DEBUG_OUTPUT_ERROR "\n"] ∧
    (py (demoEnv [desc 3 9] (versionOpts (-1) (-1)) none noError) ""
        { idleHost 3 9 with recursiveGuard := 1 }).recursiveGuard = 1 ∧
    (pip (demoEnv [desc 3 9] (versionOpts (-1) (-1)) none noError) ""
        { idleHost 3 9 with recursiveGuard := 1 }).recursiveGuard = 1 :=
  have w := nested_invocation_denied (demoEnv [desc 3 9] (versionOpts (-1) (-1)) none noError)
    "" { idleHost 3 9 with recursiveGuard := 1 } (by decide)
  ⟨w.1.trans (by decide), w.2.1, w.2.2.2.1⟩

/-- C8: whatever the collaborators do (help requested, script not found, interpreter not
found, unsupported runtime, script error, deliberate exit, normal completion), when `py`
returns the output mask of the host and the reentrancy counter are what they were at
entry. -/
theorem py_restores_mask_and_guard (env : Env) (args : String) (h : Host) :
    (py env args h).outputMask = h.outputMask ∧
    (py env args h).recursiveGuard = h.recursiveGuard := by
  constructor
  · simp [py]
  · simp [py, Host.catchAndPrint_frame]

/-! ## The version directive -/

/-- C9, evaluated at a script whose first line is `#!python3.10`, run by `!py script.py`
with 3.9 and 3.10 installed and 3.9 the default: the pattern does not match (its second group
is a single digit), the version handed to the resolver stays unspecified, and the runtime
acquired is 3.9, not the 3.10 the directive names. -/
theorem shebang_two_digit_minor_ignored :
    shebangMatch "#!python3.10".toList = none ∧
    (pyRequestedVersion
      (demoEnv [desc 3 9, desc 3 10] scriptOpts
        (some "#!python3.10") noError)
      scriptOpts "script.py").2 = (-1, -1) ∧
    (py (demoEnv [desc 3 9, desc 3 10] scriptOpts
        (some "#!python3.10") noError) "script.py" (idleHost 3 9)).trace.take 5 =
      [.parseOptions "script.py", .searchScript "script.py", .readFirstLine "script.py",
       .resolveVersion (-1) (-1), .acquireInterpreter false 3 9] := by
  decide

/-- With no version on the command line and not in module mode, the version handed to the
resolver is read off the first line of the script. -/
theorem pyRequestedVersion_of_firstLine (env : Env) (opts : Options) (file firstline : String)
    (hmod : opts.runModule = false)
    (hmaj : opts.pyMajorVersion = -1) (hmin : opts.pyMinorVersion = -1)
    (hl : env.firstLine file = some firstline) :
    (pyRequestedVersion env opts file).2 = versionFromFirstLine firstline (-1) (-1) := by
  have hc : (!opts.runModule) = true ∧ opts.pyMajorVersion = -1 ∧ opts.pyMinorVersion = -1 := by
    simp [hmod, hmaj, hmin]
  unfold pyRequestedVersion
  rw [if_pos hc, hl, hmaj, hmin]

/-- Directives with a one-digit minor: with no version on the command line, a first line
`#!python<M>.<d>` with `M` 2 or 3 and `d` a single digit hands `(M, d)` to the resolver, and
`#!python<M>` hands `(M, -1)`. -/
theorem pyRequestedVersion_single_digit (env : Env) (opts : Options) (file : String)
    (M d : Nat) (hM : M = 2 ∨ M = 3) (hd : d ≤ 9)
    (hmod : opts.runModule = false)
    (hmaj : opts.pyMajorVersion = -1) (hmin : opts.pyMinorVersion = -1) :
    (env.firstLine file =
        some (String.mk ("#!python".toList ++ [Char.ofNat (48 + M), '.', Char.ofNat (48 + d)])) →
      (pyRequestedVersion env opts file).2 = ((M : Int), (d : Int))) ∧
    (env.firstLine file = some (String.mk ("#!python".toList ++ [Char.ofNat (48 + M)])) →
      (pyRequestedVersion env opts file).2 = ((M : Int), -1)) := by
  constructor
  · intro hl
    rw [pyRequestedVersion_of_firstLine env opts file _ hmod hmaj hmin hl]
    rcases hM with rfl | rfl <;> interval_cases d <;> decide
  · intro hl
    rw [pyRequestedVersion_of_firstLine env opts file _ hmod hmaj hmin hl]
    rcases hM with rfl | rfl <;> decide

/-- The directive `#!python3.9` of the specification. -/
theorem pyRequestedVersion_single_digit_witness :
    (pyRequestedVersion
      (demoEnv [desc 3 9] scriptOpts
        (some "#!python3.9") noError)
      scriptOpts "script.py").2 = (3, 9) :=
  (pyRequestedVersion_single_digit
    (demoEnv [desc 3 9] scriptOpts
      (some "#!python3.9") noError)
    scriptOpts "script.py" 3 9
    (Or.inr rfl) (by decide) rfl rfl rfl).1 (by decide)

/-! ## `handleException` and what the commands print -/

theorem handleException_ok_iff (env : Env) (f : Fetched) :
    handleException env f = .ok () ↔ (f.errtype = none ∨ f.errtype = some PyType.SystemExit) := by
  unfold handleException
  cases hf : f.errtype with
  | none => simp
  | some ty =>
    by_cases hty : ty = PyType.SystemExit
    · simp [hty]
    · simp [hty]

/-- The events of the dispatch are neither output calls nor error fetches. -/
theorem pyDispatch_quiet (env : Env) (opts : Options) (file : String) (minor : Int) :
    ∀ e ∈ (pyDispatch env opts file minor).1, e.isOutput = false ∧ e.isErrFetch = false := by
  unfold pyDispatch
  dsimp only
  split_ifs <;> simp [Event.isOutput, Event.isErrFetch]

/-- The events of the stream rebinding are neither output calls nor error fetches. -/
theorem pyBind_quiet :
    ∀ x ∈ [Event.importMain, .setSysObject "stdout", .setSysObject "stderr",
        .setSysObject "stdin", .startInterruptWatch],
      x.isOutput = false ∧ ∀ f, x ≠ Event.errFetch f := by
  intro x hx
  simp only [List.mem_cons, List.mem_singleton, List.not_mem_nil, or_false] at hx
  rcases hx with rfl | rfl | rfl | rfl | rfl <;> exact ⟨rfl, fun f hf => by cases hf⟩

/-- Inside the scope of the runtime `py` prints nothing, and when it fetched the error
indicator its outcome is that of `handleException`. -/
theorem pyInScope_spec (env : Env) (opts : Options) (file : String) (minor : Int)
    (before : List Event) :
    (∀ x ∈ (pyInScope env opts file minor before).1, x.isOutput = false) ∧
    (∀ f, Event.errFetch f ∈ (pyInScope env opts file minor before).1 →
      (pyInScope env opts file minor before).2 = handleException env f) := by
  have hq := pyDispatch_quiet env opts file minor
  unfold pyInScope
  dsimp only
  rcases hd : pyDispatch env opts file minor with ⟨run, r⟩
  rw [hd] at hq
  have hrun1 : ∀ x ∈ run, x.isOutput = false := fun x hx => (hq x hx).1
  have hrun2 : ∀ f, Event.errFetch f ∉ run := fun f hf => by
    simpa [Event.isErrFetch] using (hq _ hf).2
  cases r with
  | error msg =>
    dsimp only
    constructor
    · intro x hx
      rcases List.mem_append.mp hx with hx | hx
      · exact (pyBind_quiet x hx).1
      · exact hrun1 x hx
    · intro f hf
      rcases List.mem_append.mp hf with hf | hf
      · exact absurd rfl ((pyBind_quiet _ hf).2 f)
      · exact absurd hf (hrun2 f)
  | ok u =>
    dsimp only
    cases hh : handleException env (env.errFetch (before ++ [.importMain,
        .setSysObject "stdout", .setSysObject "stderr", .setSysObject "stdin",
        .startInterruptWatch] ++ run)) with
    | error msg =>
      dsimp only
      constructor
      · intro x hx
        rcases List.mem_append.mp hx with hx | hx
        · rcases List.mem_append.mp hx with hx | hx
          · exact (pyBind_quiet x hx).1
          · exact hrun1 x hx
        · rw [List.mem_singleton.mp hx]; rfl
      · intro f hf
        rcases List.mem_append.mp hf with hf | hf
        · rcases List.mem_append.mp hf with hf | hf
          · exact absurd rfl ((pyBind_quiet _ hf).2 f)
          · exact absurd hf (hrun2 f)
        · have hf := List.mem_singleton.mp hf
          injection hf with hf
          rw [hf, hh]
    | ok u =>
      dsimp only
      split_ifs
      · constructor
        · intro x hx
          rcases List.mem_append.mp hx with hx | hx
          · rcases List.mem_append.mp hx with hx | hx
            · exact (pyBind_quiet x hx).1
            · exact hrun1 x hx
          · simp only [List.mem_cons, List.mem_singleton, List.not_mem_nil, or_false] at hx
            rcases hx with rfl | rfl <;> rfl
        · intro f hf
          rcases List.mem_append.mp hf with hf | hf
          · rcases List.mem_append.mp hf with hf | hf
            · exact absurd rfl ((pyBind_quiet _ hf).2 f)
            · exact absurd hf (hrun2 f)
          · simp only [List.mem_cons, List.mem_singleton, List.not_mem_nil, or_false] at hf
            rcases hf with hf | hf
            · injection hf with hf
              rw [hf, hh]
            · cases hf
      · constructor
        · intro x hx
          rcases List.mem_append.mp hx with hx | hx
          · rcases List.mem_append.mp hx with hx | hx
            · exact (pyBind_quiet x hx).1
            · exact hrun1 x hx
          · rw [List.mem_singleton.mp hx]; rfl
        · intro f hf
          rcases List.mem_append.mp hf with hf | hf
          · rcases List.mem_append.mp hf with hf | hf
            · exact absurd rfl ((pyBind_quiet _ hf).2 f)
            · exact absurd hf (hrun2 f)
          · have hf := List.mem_singleton.mp hf
            injection hf with hf
            rw [hf, hh]

theorem Plain.nil : Plain [] := fun x hx => absurd hx (List.not_mem_nil x)

theorem Plain.append {a b : List Event} (ha : Plain a) (hb : Plain b) : Plain (a ++ b) := by
  intro x hx
  rcases List.mem_append.mp hx with hx | hx
  · exact ha x hx
  · exact hb x hx

theorem Plain.cons {x : Event} {l : List Event} (hx : x.isOutput = false)
    (hf : ∀ f, x ≠ Event.errFetch f) (hl : Plain l) : Plain (x :: l) := by
  intro y hy
  rcases List.mem_cons.mp hy with rfl | hy
  · exact ⟨hx, hf⟩
  · exact hl y hy

theorem pyScriptFile_plain (env : Env) (opts : Options) : Plain (pyScriptFile env opts).1 := by
  unfold pyScriptFile
  dsimp only
  split_ifs
  · exact Plain.cons rfl (fun f hf => by cases hf) Plain.nil
  · exact Plain.cons rfl (fun f hf => by cases hf) Plain.nil
  · exact Plain.nil

theorem pyRequestedVersion_plain (env : Env) (opts : Options) (file : String) :
    Plain (pyRequestedVersion env opts file).1 := by
  unfold pyRequestedVersion
  split_ifs
  · cases env.firstLine file <;> exact Plain.cons rfl (fun f hf => by cases hf) Plain.nil
  · exact Plain.nil

/-- The `try` block of `py` prints nothing itself, and when it fetched the error indicator
its outcome is that of `handleException`. -/
theorem pyTry_spec (env : Env) (args : String) (h : Host) :
    (∀ x ∈ (pyTry env args h).1, x.isOutput = false) ∧
    (∀ f, Event.errFetch f ∈ (pyTry env args h).1 →
      (pyTry env args h).2 = handleException env f) := by
  have plain_spec : ∀ (l : List Event) (r : Except String Unit), Plain l →
      (∀ x ∈ (l, r).1, x.isOutput = false) ∧
      (∀ f, Event.errFetch f ∈ (l, r).1 → (l, r).2 = handleException env f) :=
    fun l r hl => ⟨fun x hx => (hl x hx).1, fun f hf => absurd rfl ((hl _ hf).2 f)⟩
  have hparse : Plain [Event.parseOptions args] :=
    Plain.cons rfl (fun f hf => by cases hf) Plain.nil
  unfold pyTry
  split_ifs
  · exact plain_spec _ _ Plain.nil
  · cases env.parseOptions args with
    | error msg => exact plain_spec _ _ hparse
    | ok opts =>
      dsimp only
      split_ifs
      · exact plain_spec _ _ hparse
      · have hs := pyScriptFile_plain env opts
        rcases hsf : pyScriptFile env opts with ⟨search, rs⟩
        rw [hsf] at hs
        cases rs with
        | error msg => exact plain_spec _ _ (Plain.append hparse hs)
        | ok scriptFileName =>
          dsimp only
          have hv := pyRequestedVersion_plain env opts scriptFileName
          rcases hrv : pyRequestedVersion env opts scriptFileName with ⟨read, maj, min⟩
          rw [hrv] at hv
          dsimp only
          have ht : Plain (Event.parseOptions args :: search ++ read
              ++ [Event.resolveVersion maj min]) :=
            Plain.append (Plain.append (Plain.append hparse hs) hv)
              (Plain.cons rfl (fun f hf => by cases hf) Plain.nil)
          cases getPythonVersion env.interpreterList h.defaultMajorVersion
              h.defaultMinorVersion maj min with
          | error msg => exact plain_spec _ _ ht
          | ok ver =>
            obtain ⟨majorVersion, minorVersion⟩ := ver
            dsimp only
            have ht2 : Plain (Event.parseOptions args :: search ++ read
                ++ [Event.resolveVersion maj min]
                ++ [Event.acquireInterpreter opts.global majorVersion minorVersion]) :=
              Plain.append ht (Plain.cons rfl (fun f hf => by cases hf) Plain.nil)
            cases env.acquire opts.global majorVersion minorVersion with
            | error msg => exact plain_spec _ _ ht2
            | ok u =>
              dsimp only
              obtain ⟨q1, q2⟩ := pyInScope_spec env opts scriptFileName minorVersion
                (h.trace ++ (Event.parseOptions args :: search ++ read
                  ++ [Event.resolveVersion maj min]
                  ++ [Event.acquireInterpreter opts.global majorVersion minorVersion]))
              have hend : Plain [Event.stopInterruptWatch, Event.releaseInterpreter] :=
                Plain.cons rfl (fun f hf => by cases hf)
                  (Plain.cons rfl (fun f hf => by cases hf) Plain.nil)
              constructor
              · intro x hx
                rcases List.mem_append.mp hx with hx | hx
                · rcases List.mem_append.mp hx with hx | hx
                  · exact (ht2 x hx).1
                  · exact q1 x hx
                · exact (hend x hx).1
              · intro f hf
                rcases List.mem_append.mp hf with hf | hf
                · rcases List.mem_append.mp hf with hf | hf
                  · exact absurd rfl ((ht2 _ hf).2 f)
                  · exact q2 f hf
                · exact absurd rfl ((hend _ hf).2 f)

/-- The `try` block of `pip` prints nothing itself, and when it fetched the error indicator
its outcome is that of `handleException`. -/
theorem pipTry_spec (env : Env) (args : String) (h : Host) :
    (∀ x ∈ (pipTry env args h).1, x.isOutput = false) ∧
    (∀ f, Event.errFetch f ∈ (pipTry env args h).1 →
      (pipTry env args h).2 = handleException env f) := by
  have plain_spec : ∀ (l : List Event) (r : Except String Unit), Plain l →
      (∀ x ∈ (l, r).1, x.isOutput = false) ∧
      (∀ f, Event.errFetch f ∈ (l, r).1 → (l, r).2 = handleException env f) :=
    fun l r hl => ⟨fun x hx => (hl x hx).1, fun f hf => absurd rfl ((hl _ hf).2 f)⟩
  have hparse : Plain [Event.parseOptions args] :=
    Plain.cons rfl (fun f hf => by cases hf) Plain.nil
  unfold pipTry
  split_ifs
  · exact plain_spec _ _ Plain.nil
  · cases env.parseOptions args with
    | error msg => exact plain_spec _ _ hparse
    | ok opts =>
      dsimp only
      have ht : Plain [Event.parseOptions args,
          Event.resolveVersion opts.pyMajorVersion opts.pyMinorVersion] :=
        Plain.cons rfl (fun f hf => by cases hf)
          (Plain.cons rfl (fun f hf => by cases hf) Plain.nil)
      cases getPythonVersion env.interpreterList h.defaultMajorVersion
          h.defaultMinorVersion opts.pyMajorVersion opts.pyMinorVersion with
      | error msg => exact plain_spec _ _ ht
      | ok ver =>
        obtain ⟨majorVersion, minorVersion⟩ := ver
        dsimp only
        have ht2 : Plain ([Event.parseOptions args,
            Event.resolveVersion opts.pyMajorVersion opts.pyMinorVersion]
            ++ [Event.acquireInterpreter true majorVersion minorVersion]) :=
          Plain.append ht (Plain.cons rfl (fun f hf => by cases hf) Plain.nil)
        cases env.acquire true majorVersion minorVersion with
        | error msg => exact plain_spec _ _ ht2
        | ok u =>
          dsimp only
          unfold pipInScope
          dsimp only
          have hrun : Plain [Event.setSysObject "stdout", Event.setSysObject "stderr",
              Event.setSysObject "stdin", Event.importMain, Event.setArgv ("pip" :: opts.args),
              Event.runString "import runpy\n",
              Event.runString
                (if env.isPy3 = true then
                  "runpy.run_module('pip', run_name='__main__',  alter_sys=True)" ++ "\n"
                else "runpy.run_module('pip', run_name='__main__', alter_sys=True)" ++ "\n")] := by
            intro x hx
            simp only [List.mem_cons, List.mem_singleton, List.not_mem_nil, or_false] at hx
            rcases hx with rfl | rfl | rfl | rfl | rfl | rfl | rfl <;>
              exact ⟨rfl, fun f hf => by cases hf⟩
          have hend : Plain [Event.releaseInterpreter] :=
            Plain.cons rfl (fun f hf => by cases hf) Plain.nil
          constructor
          · intro x hx
            rcases List.mem_append.mp hx with hx | hx
            · rcases List.mem_append.mp hx with hx | hx
              · exact (ht2 x hx).1
              · rcases List.mem_append.mp hx with hx | hx
                · exact (hrun x hx).1
                · rw [List.mem_singleton.mp hx]; rfl
            · exact (hend x hx).1
          · intro f hf
            rcases List.mem_append.mp hf with hf | hf
            · rcases List.mem_append.mp hf with hf | hf
              · exact absurd rfl ((ht2 _ hf).2 f)
              · rcases List.mem_append.mp hf with hf | hf
                · exact absurd rfl ((hrun _ hf).2 f)
                · have hf := List.mem_singleton.mp hf
                  injection hf with hf
                  rw [hf]
            · exact absurd rfl ((hend _ hf).2 f)

/-- The trace after the handler: the events of the `try` block, then the printed text of the
exception if one was caught. -/
theorem Host.catchAndPrint_trace (h : Host) (env : Env) (r : List Event × Except String Unit) :
    (h.catchAndPrint env r).trace = h.trace ++ (r.1 ++
      match r.2 with
      | .ok _ => []
      | .error e => printString env DEBUG_OUTPUT_ERROR e) := by
  obtain ⟨t, r⟩ := r
  cases r with
  | ok u => simp [Host.catchAndPrint]
  | error e => simp [Host.catchAndPrint, List.append_assoc]

/-- A command built from a `try` block that prints nothing itself and whose outcome after a
fetch is that of `handleException` prints nothing when the fetched error is absent or is
`SystemExit`. -/
theorem silent_after_fetch (env : Env) (h : Host) (r : List Event × Except String Unit)
    (f : Fetched)
    (hq : ∀ x ∈ r.1, x.isOutput = false)
    (hr : Event.errFetch f ∈ r.1 → r.2 = handleException env f)
    (hf : f.errtype = none ∨ f.errtype = some PyType.SystemExit) :
    ∃ added, (h.catchAndPrint env r).trace = h.trace ++ added ∧
      (Event.errFetch f ∈ added → ∀ x ∈ added, x.isOutput = false) := by
  refine ⟨_, Host.catchAndPrint_trace h env r, ?_⟩
  intro hmem
  have hin : Event.errFetch f ∈ r.1 := by
    rcases List.mem_append.mp hmem with hm | hm
    · exact hm
    · exfalso
      cases hr2 : r.2 with
      | ok u => rw [hr2] at hm; simp at hm
      | error e =>
        rw [hr2] at hm
        obtain ⟨ctl, text, he⟩ := printString_events env _ e _ hm
        cases he
  have hok : r.2 = .ok () := (hr hin).trans ((handleException_ok_iff env f).mpr hf)
  rw [hok]
  intro x hx
  rcases List.mem_append.mp hx with hx | hx
  · exact hq x hx
  · simp at hx

/-- C10: `handleException` throws exactly when an error is pending whose type is not
`SystemExit`, and the exception then carries the formatted traceback; when nothing is
pending, or `SystemExit` is, it returns normally, and a `py` or `pip` that fetched this
indicator makes no output call at all, so it prints no error. -/
theorem handleException_reports_iff (env : Env) (f : Fetched) :
    ((∃ msg, handleException env f = .error msg) ↔
      ∃ ty, f.errtype = some ty ∧ ty ≠ PyType.SystemExit) ∧
    (∀ msg, handleException env f = .error msg →
      ∃ ty, f.errtype = some ty ∧
        msg = "\n" ++ "\n" ++
          String.join ((env.formatException ty f.errvalue f.traceback).map (· ++ "\n"))) ∧
    ((f.errtype = none ∨ f.errtype = some PyType.SystemExit) →
      handleException env f = .ok () ∧
      ∀ (args : String) (h : Host),
        (∃ added, (py env args h).trace = h.trace ++ added ∧
          (Event.errFetch f ∈ added → ∀ x ∈ added, x.isOutput = false)) ∧
        (∃ added, (pip env args h).trace = h.trace ++ added ∧
          (Event.errFetch f ∈ added → ∀ x ∈ added, x.isOutput = false))) := by
  refine ⟨?_, ?_, ?_⟩
  · unfold handleException
    cases hf : f.errtype with
    | none => simp
    | some ty =>
      by_cases hty : ty = PyType.SystemExit
      · simp [hty]
      · simp [hty]
  · intro msg hmsg
    unfold handleException at hmsg
    cases hf : f.errtype with
    | none => rw [hf] at hmsg; simp at hmsg
    | some ty =>
      rw [hf] at hmsg
      by_cases hty : ty = PyType.SystemExit
      · simp [hty] at hmsg
      · simp only [ne_eq, hty, not_false_eq_true, if_true] at hmsg
        injection hmsg with hmsg
        exact ⟨ty, rfl, hmsg.symm⟩
  · intro hf
    refine ⟨(handleException_ok_iff env f).mpr hf, fun args h => ⟨?_, ?_⟩⟩
    · obtain ⟨q1, q2⟩ := pyTry_spec env args
        { h with
          outputMask :=
            if env.isClassicWindbg then
              (h.outputMask ||| DEBUG_OUTPUT_STATUS) &&& (0xFFFFFFFF ^^^ DEBUG_OUTPUT_PROMPT)
            else h.outputMask ||| DEBUG_OUTPUT_STATUS
          recursiveGuard := h.recursiveGuard + 1 }
      exact silent_after_fetch env _ _ f q1 (q2 f) hf
    · obtain ⟨q1, q2⟩ := pipTry_spec env args
        { h with recursiveGuard := h.recursiveGuard + 1 }
      exact silent_after_fetch env _ _ f q1 (q2 f) hf

/-- C10 at a script interrupted by the bridge: `SystemExit` is pending,
`handleException` returns normally and neither `py` nor `pip` prints; the run of `py` did
fetch the indicator. -/
theorem handleException_reports_iff_witness :
    (handleException (demoEnv [desc 3 9] scriptOpts (some "") ctrlBreak) ctrlBreak = .ok () ∧
      ∀ (args : String) (h : Host),
        (∃ added, (py (demoEnv [desc 3 9] scriptOpts (some "") ctrlBreak) args h).trace
            = h.trace ++ added ∧
          (Event.errFetch ctrlBreak ∈ added → ∀ x ∈ added, x.isOutput = false)) ∧
        (∃ added, (pip (demoEnv [desc 3 9] scriptOpts (some "") ctrlBreak) args h).trace
            = h.trace ++ added ∧
          (Event.errFetch ctrlBreak ∈ added → ∀ x ∈ added, x.isOutput = false))) ∧
    Event.errFetch ctrlBreak ∈
      (py (demoEnv [desc 3 9] scriptOpts (some "") ctrlBreak) "script.py" (idleHost 3 9)).trace :=
  ⟨(handleException_reports_iff (demoEnv [desc 3 9] scriptOpts (some "") ctrlBreak)
      ctrlBreak).2.2 (Or.inr rfl), by decide⟩

/-- The outcomes of `py` on concrete collaborators: help requested, script not found,
interpreter not found, unsupported runtime, script error, deliberate exit and normal
completion each take their own path through the `try` block. -/
theorem pyTry_outcomes :
    (pyTry (demoEnv [desc 3 9] { scriptOpts with showHelp := true } none noError) "-h"
      (idleHost 3 9)).2 = .error printUsageMsg ∧
    (pyTry { demoEnv [desc 3 9] scriptOpts none noError with searchPath := fun _ => none }
      "script.py" (idleHost 3 9)).2 = .error "script not found: script.py" ∧
    (pyTry (demoEnv [] scriptOpts none noError) "script.py" (idleHost 3 9)).2
      = .error interpreterNotFoundMsg ∧
    (pyTry (demoEnv [desc 3 4] scriptOpts none noError) "script.py" (idleHost 3 4)).2
      = .error "Unsupported C API _Py_fopen_obj\n" ∧
    (pyTry (demoEnv [desc 3 9] scriptOpts none valueError) "script.py" (idleHost 3 9)).2
      = .error "\n\nTraceback (most recent call last):\nError\n" ∧
    (pyTry (demoEnv [desc 3 9] scriptOpts none ctrlBreak) "script.py" (idleHost 3 9)).2
      = .ok () ∧
    (pyTry (demoEnv [desc 3 9] scriptOpts none noError) "script.py" (idleHost 3 9)).2
      = .ok () := by
  refine ⟨rfl, by decide, by decide, by decide, by decide, by decide, by decide⟩

/-! ## `info` on an empty registry -/

/-- On an empty registry `info` prints the text of the exception of
`getDefaultPythonVersion` at error severity and nothing else. -/
theorem info_empty_registry (env : Env) (h : Host) (hl : env.interpreterList = []) :
    (info env h).trace = h.trace ++ printString env DEBUG_OUTPUT_ERROR interpreterNotFoundMsg := by
  have hd : getDefaultPythonVersion env.interpreterList h.defaultMajorVersion
      h.defaultMinorVersion = .error interpreterNotFoundMsg := by
    rw [hl]
    simp [getDefaultPythonVersion, defaultIsInstalled, scanMajor]
  simp only [info, infoText, hd, Host.print]

/-- C12, evaluated at `!info` with no interpreter installed: the call of
`getDefaultPythonVersion` at line 157 throws before the table is printed, so the only output
is the exception text at error severity; nothing goes to the normal channel and the line
`No python interpreter found` of line 180 is never printed. -/
theorem info_empty_registry_prints_error :
    (info (demoEnv [] (versionOpts (-1) (-1)) none noError) (idleHost (-1) (-1))).trace
      = [.output .DEBUG_OUTCTL_AMBIENT_TEXT DEBUG_OUTPUT_ERROR
          "failed to find python interpreter\n",
         .output .DEBUG_OUTCTL_AMBIENT_TEXT DEBUG_OUTPUT_ERROR "\n"] ∧
    (∀ ctl text, Event.output ctl DEBUG_OUTPUT_NORMAL text ∉
      (info (demoEnv [] (versionOpts (-1) (-1)) none noError) (idleHost (-1) (-1))).trace) := by
  have ht : (info (demoEnv [] (versionOpts (-1) (-1)) none noError) (idleHost (-1) (-1))).trace
      = [.output .DEBUG_OUTCTL_AMBIENT_TEXT DEBUG_OUTPUT_ERROR
          "failed to find python interpreter\n",
         .output .DEBUG_OUTCTL_AMBIENT_TEXT DEBUG_OUTPUT_ERROR "\n"] := by
    decide
  refine ⟨ht, ?_⟩
  intro ctl text hmem
  rw [ht] at hmem
  simp [DEBUG_OUTPUT_ERROR, DEBUG_OUTPUT_NORMAL] at hmem

/-! ## The majors accepted by `shebangRe` -/

/-- C14, evaluated at the first line `#!python,`: the bracket expression `[2,3]` of
`shebangRe` holds a comma, so the line is accepted with the comma as first group, `atol`
of it is 0, and `py` hands major 0 to the resolver. -/
theorem shebang_comma_accepted :
    shebangMatch "#!python,".toList = some ([','], none) ∧
    atol [','] = 0 ∧
    (pyRequestedVersion (demoEnv [desc 3 9] scriptOpts (some "#!python,") noError)
      scriptOpts "script.py").2 = (0, -1) ∧
    (py (demoEnv [desc 3 9] scriptOpts (some "#!python,") noError) "script.py"
        (idleHost 3 9)).trace =
      [.parseOptions "script.py", .searchScript "script.py", .readFirstLine "script.py",
       .resolveVersion 0 (-1),
       .output .DEBUG_OUTCTL_AMBIENT_TEXT DEBUG_OUTPUT_ERROR
         "failed to find python interpreter\n",
       .output .DEBUG_OUTCTL_AMBIENT_TEXT DEBUG_OUTPUT_ERROR "\n"] := by
  decide

theorem isDigit_cases (d : Char) (hd : isDigit d = true) :
    d ∈ ['0', '1', '2', '3', '4', '5', '6', '7', '8', '9'] := by
  unfold isDigit at hd
  simp only [decide_eq_true_eq] at hd
  obtain ⟨h1, h2⟩ := hd
  have h1' : 48 ≤ d.toNat := h1
  have h2' : d.toNat ≤ 57 := h2
  have hd : d = Char.ofNat d.toNat := (Char.ofNat_toNat d).symm
  rw [hd]
  generalize d.toNat = n at h1' h2'
  interval_cases n <;> decide

/-- The capture groups of an accepted first line: the first is one of the three characters
of the bracket expression, the second, when it took part, is one digit. -/
theorem shebangMatch_groups (firstline : List Char) (g1 : List Char) (g2 : Option (List Char))
    (h : shebangMatch firstline = some (g1, g2)) :
    (g1 = ['2'] ∨ g1 = [','] ∨ g1 = ['3']) ∧
    (g2 = none ∨ ∃ d, isDigit d = true ∧ g2 = some [d]) := by
  unfold shebangMatch at h
  split at h
  · split at h
    · split_ifs at h with hc
      · split at h
        · injection h with h
          injection h with h1 h2
          subst h1 h2
          refine ⟨?_, Or.inl rfl⟩
          rcases hc with rfl | rfl | rfl <;> simp
        · split_ifs at h with hd
          injection h with h
          injection h with h1 h2
          subst h1 h2
          refine ⟨?_, Or.inr ⟨_, hd, rfl⟩⟩
          rcases hc with rfl | rfl | rfl <;> simp
        · cases h
    · cases h
  · cases h

/-- What holds of the versions derived from an accepted first line: the major is 0, 2 or 3
(0 exactly when the first group is the comma), and the minor, when the second group took
part in the match, is a number from 0 to 9 and otherwise is left as it was. -/
theorem versionFromFirstLine_accepted (firstline : String) (major minor : Int)
    (g1 : List Char) (g2 : Option (List Char))
    (h : shebangMatch firstline.toList = some (g1, g2)) :
    ((versionFromFirstLine firstline major minor).1 = 0 ∨
      (versionFromFirstLine firstline major minor).1 = 2 ∨
      (versionFromFirstLine firstline major minor).1 = 3) ∧
    ((versionFromFirstLine firstline major minor).1 = 0 ↔ g1 = [',']) ∧
    (g2 = none → (versionFromFirstLine firstline major minor).2 = minor) ∧
    (g2 ≠ none → 0 ≤ (versionFromFirstLine firstline major minor).2 ∧
      (versionFromFirstLine firstline major minor).2 ≤ 9) := by
  obtain ⟨hg1, hg2⟩ := shebangMatch_groups _ _ _ h
  unfold versionFromFirstLine
  rw [h]
  dsimp only
  refine ⟨?_, ?_, ?_, ?_⟩
  · rcases hg1 with rfl | rfl | rfl
    · exact Or.inr (Or.inl (by decide))
    · exact Or.inl (by decide)
    · exact Or.inr (Or.inr (by decide))
  · rcases hg1 with rfl | rfl | rfl
    · exact ⟨fun hc => absurd hc (by decide), fun hc => absurd hc (by decide)⟩
    · exact ⟨fun _ => rfl, fun _ => by decide⟩
    · exact ⟨fun hc => absurd hc (by decide), fun hc => absurd hc (by decide)⟩
  · intro hn
    rw [hn]
  · intro hn
    rcases hg2 with hg2 | ⟨d, hd, hg2⟩
    · exact absurd hg2 hn
    · rw [hg2]
      dsimp only
      have hcases := isDigit_cases d hd
      simp only [List.mem_cons, List.mem_singleton, List.not_mem_nil, or_false] at hcases
      rcases hcases with rfl | rfl | rfl | rfl | rfl | rfl | rfl | rfl | rfl | rfl <;> decide

/-- The directive `#!python2.7`: major 2, minor 7. -/
theorem versionFromFirstLine_accepted_witness :
    ((versionFromFirstLine "#!python2.7" (-1) (-1)).1 = 0 ∨
      (versionFromFirstLine "#!python2.7" (-1) (-1)).1 = 2 ∨
      (versionFromFirstLine "#!python2.7" (-1) (-1)).1 = 3) ∧
    (0 ≤ (versionFromFirstLine "#!python2.7" (-1) (-1)).2 ∧
      (versionFromFirstLine "#!python2.7" (-1) (-1)).2 ≤ 9) :=
  have w := versionFromFirstLine_accepted "#!python2.7" (-1) (-1) ['2'] (some ['7'])
    (by decide)
  ⟨w.1, w.2.2.2 (by decide)⟩

/-! ## The namespace cleanup of `py` -/

theorem pyDispatch_noClear (env : Env) (opts : Options) (file : String) (minor : Int) :
    Event.dictClear ∉ (pyDispatch env opts file minor).1 := by
  unfold pyDispatch
  dsimp only
  split_ifs <;> simp

theorem pyScriptFile_noClear (env : Env) (opts : Options) :
    Event.dictClear ∉ (pyScriptFile env opts).1 := by
  unfold pyScriptFile
  dsimp only
  split_ifs <;> simp

theorem pyRequestedVersion_noClear (env : Env) (opts : Options) (file : String) :
    Event.dictClear ∉ (pyRequestedVersion env opts file).1 := by
  unfold pyRequestedVersion
  split_ifs
  · cases env.firstLine file <;> simp
  · simp

/-- Inside the scope of the runtime the namespace is cleared exactly when `py` is not in
global mode and no exception leaves the scope. -/
theorem pyInScope_dictClear (env : Env) (opts : Options) (file : String) (minor : Int)
    (before : List Event) :
    Event.dictClear ∈ (pyInScope env opts file minor before).1 ↔
      (opts.global = false ∧ (pyInScope env opts file minor before).2 = .ok ()) := by
  have hq := pyDispatch_noClear env opts file minor
  unfold pyInScope
  dsimp only
  rcases hd : pyDispatch env opts file minor with ⟨run, r⟩
  rw [hd] at hq
  dsimp only at hq
  cases r with
  | error msg => simp [hq]
  | ok u =>
    dsimp only
    cases hh : handleException env (env.errFetch (before ++ [.importMain,
        .setSysObject "stdout", .setSysObject "stderr", .setSysObject "stdin",
        .startInterruptWatch] ++ run)) with
    | error msg => simp [hq]
    | ok u =>
      dsimp only
      cases hg : opts.global <;> simp [hq]

/-- The `try` block of `py` clears the namespace only when the options ask for the local
namespace and the block ends without an exception. -/
theorem pyTry_dictClear (env : Env) (args : String) (h : Host) :
    Event.dictClear ∈ (pyTry env args h).1 →
      (pyTry env args h).2 = .ok () ∧
      ∃ opts, env.parseOptions args = .ok opts ∧ opts.global = false := by
  unfold pyTry
  split_ifs
  · simp
  · cases hp : env.parseOptions args with
    | error msg => simp
    | ok opts =>
      dsimp only
      split_ifs
      · simp
      · have hs := pyScriptFile_noClear env opts
        rcases hsf : pyScriptFile env opts with ⟨search, rs⟩
        rw [hsf] at hs
        dsimp only at hs
        cases rs with
        | error msg => simp [hs]
        | ok scriptFileName =>
          dsimp only
          have hv := pyRequestedVersion_noClear env opts scriptFileName
          rcases hrv : pyRequestedVersion env opts scriptFileName with ⟨read, maj, min⟩
          rw [hrv] at hv
          dsimp only at hv ⊢
          cases getPythonVersion env.interpreterList h.defaultMajorVersion
              h.defaultMinorVersion maj min with
          | error msg => simp [hs, hv]
          | ok ver =>
            obtain ⟨majorVersion, minorVersion⟩ := ver
            dsimp only
            cases env.acquire opts.global majorVersion minorVersion with
            | error msg => simp [hs, hv]
            | ok u =>
              dsimp only
              intro hmem
              have hin : Event.dictClear ∈ (pyInScope env opts scriptFileName minorVersion
                  (h.trace ++ (Event.parseOptions args :: search ++ read
                    ++ [Event.resolveVersion maj min]
                    ++ [Event.acquireInterpreter opts.global majorVersion minorVersion]))).1 := by
                simpa [hs, hv] using hmem
              obtain ⟨hg, hok⟩ := (pyInScope_dictClear _ _ _ _ _).mp hin
              exact ⟨hok, opts, rfl, hg⟩

/-- A scope left without an exception has fetched the error indicator. -/
theorem pyInScope_ok_fetched (env : Env) (opts : Options) (file : String) (minor : Int)
    (before : List Event) :
    (pyInScope env opts file minor before).2 = .ok () →
      ∃ f, Event.errFetch f ∈ (pyInScope env opts file minor before).1 := by
  unfold pyInScope
  dsimp only
  rcases hd : pyDispatch env opts file minor with ⟨run, r⟩
  cases r with
  | error msg => simp
  | ok u =>
    dsimp only
    cases hh : handleException env (env.errFetch (before ++ [.importMain,
        .setSysObject "stdout", .setSysObject "stderr", .setSysObject "stdin",
        .startInterruptWatch] ++ run)) with
    | error msg => simp
    | ok u =>
      dsimp only
      intro _
      refine ⟨env.errFetch (before ++ [.importMain, .setSysObject "stdout",
        .setSysObject "stderr", .setSysObject "stdin", .startInterruptWatch] ++ run), ?_⟩
      cases hg : opts.global <;> simp

/-- A `try` block of `py` that ends without an exception has fetched the error indicator
and, when the options ask for the local namespace, has cleared the namespace. -/
theorem pyTry_ok (env : Env) (args : String) (h : Host) :
    (pyTry env args h).2 = .ok () →
    ∃ opts, env.parseOptions args = .ok opts ∧
      (∃ f, Event.errFetch f ∈ (pyTry env args h).1) ∧
      (opts.global = false → Event.dictClear ∈ (pyTry env args h).1) := by
  unfold pyTry
  split_ifs
  · simp
  · cases hp : env.parseOptions args with
    | error msg => simp
    | ok opts =>
      dsimp only
      split_ifs
      · simp
      · rcases hsf : pyScriptFile env opts with ⟨search, rs⟩
        cases rs with
        | error msg => simp
        | ok scriptFileName =>
          dsimp only
          rcases hrv : pyRequestedVersion env opts scriptFileName with ⟨read, maj, min⟩
          dsimp only
          cases hg : getPythonVersion env.interpreterList h.defaultMajorVersion
              h.defaultMinorVersion maj min with
          | error msg => simp
          | ok ver =>
            obtain ⟨majorVersion, minorVersion⟩ := ver
            dsimp only
            cases ha : env.acquire opts.global majorVersion minorVersion with
            | error msg => simp
            | ok u =>
              dsimp only
              intro hok
              obtain ⟨f, hf⟩ := pyInScope_ok_fetched _ _ _ _ _ hok
              refine ⟨opts, rfl, ⟨f, ?_⟩, fun hgl => ?_⟩
              · exact List.mem_append_left _ (List.mem_append_right _ hf)
              · exact List.mem_append_left _ (List.mem_append_right _
                  ((pyInScope_dictClear _ _ _ _ _).mpr ⟨hgl, hok⟩))

/-- What holds of the cleanup: a `py` whose command line parses clears the namespace exactly
when the options ask for the local namespace and `handleException` found nothing to report;
in global mode, and whenever an error is reported, the namespace is not cleared. -/
theorem py_clears_namespace_iff (env : Env) (args : String) (h : Host) (opts : Options)
    (hp : env.parseOptions args = .ok opts) :
    ∃ added, (py env args h).trace = h.trace ++ added ∧
      (Event.dictClear ∈ added ↔
        (opts.global = false ∧
          ∃ f, Event.errFetch f ∈ added ∧ handleException env f = .ok ())) := by
  refine ⟨_, Host.catchAndPrint_trace _ env _, ?_⟩
  generalize hh : ({ h with
      outputMask :=
        if env.isClassicWindbg then
          (h.outputMask ||| DEBUG_OUTPUT_STATUS) &&& (0xFFFFFFFF ^^^ DEBUG_OUTPUT_PROMPT)
        else h.outputMask ||| DEBUG_OUTPUT_STATUS
      recursiveGuard := h.recursiveGuard + 1 } : Host) = h1
  have hprinted : ∀ x ∈ (match (pyTry env args h1).2 with
      | .ok _ => []
      | .error e => printString env DEBUG_OUTPUT_ERROR e), ∃ ctl text,
        x = Event.output ctl DEBUG_OUTPUT_ERROR text := by
    intro x hx
    cases hr : (pyTry env args h1).2 with
    | ok u => rw [hr] at hx; simp at hx
    | error e => rw [hr] at hx; exact printString_events env _ e x hx
  obtain ⟨_, q2⟩ := pyTry_spec env args h1
  constructor
  · intro hmem
    have hin : Event.dictClear ∈ (pyTry env args h1).1 := by
      rcases List.mem_append.mp hmem with hm | hm
      · exact hm
      · obtain ⟨ctl, text, he⟩ := hprinted _ hm
        cases he
    obtain ⟨hok, opts1, hp1, hg1⟩ := pyTry_dictClear env args h1 hin
    have ho : opts1 = opts := by
      rw [hp] at hp1
      injection hp1 with hp1
      exact hp1.symm
    subst ho
    obtain ⟨_, _, ⟨f, hf⟩, _⟩ := pyTry_ok env args h1 hok
    exact ⟨hg1, f, List.mem_append_left _ hf, (q2 f hf).symm.trans hok⟩
  · rintro ⟨hg, f, hf, hfok⟩
    have hin : Event.errFetch f ∈ (pyTry env args h1).1 := by
      rcases List.mem_append.mp hf with hm | hm
      · exact hm
      · obtain ⟨ctl, text, he⟩ := hprinted _ hm
        cases he
    have hok : (pyTry env args h1).2 = .ok () := (q2 f hin).trans hfok
    obtain ⟨opts1, hp1, _, hclear⟩ := pyTry_ok env args h1 hok
    have ho : opts1 = opts := by
      rw [hp] at hp1
      injection hp1 with hp1
      exact hp1.symm
    subst ho
    exact List.mem_append_left _ (hclear hg)

/-- The cleanup at a script that ends normally in the local namespace: the namespace is
cleared. -/
theorem py_clears_namespace_iff_witness :
    ∃ added, (py (demoEnv [desc 3 9] scriptOpts none noError) "script.py" (idleHost 3 9)).trace
        = (idleHost 3 9).trace ++ added ∧
      (Event.dictClear ∈ added ↔
        (scriptOpts.global = false ∧
          ∃ f, Event.errFetch f ∈ added ∧
            handleException (demoEnv [desc 3 9] scriptOpts none noError) f = .ok ())) :=
  py_clears_namespace_iff (demoEnv [desc 3 9] scriptOpts none noError) "script.py"
    (idleHost 3 9) scriptOpts rfl

/-- C11, evaluated at `!py script.py` in the local namespace with a script that raises
`ValueError`: the script was run and the error is reported, but `handleException` throws
before line 525 is reached, so `py` returns without clearing the namespace. -/
theorem py_script_error_skips_cleanup :
    scriptOpts.global = false ∧
    (py (demoEnv [desc 3 9] scriptOpts none valueError) "script.py" (idleHost 3 9)).trace =
      [.parseOptions "script.py", .searchScript "script.py", .readFirstLine "script.py",
       .resolveVersion (-1) (-1), .acquireInterpreter false 3 9, .importMain,
       .setSysObject "stdout", .setSysObject "stderr", .setSysObject "stdin",
       .startInterruptWatch, .runString "import sys\nsys.setrecursionlimit(500)\n",
       .setArgv ["script.py"], .openScript "script.py", .runFile "script.py",
       .errFetch valueError, .stopInterruptWatch, .releaseInterpreter,
       .output .DEBUG_OUTCTL_AMBIENT_TEXT DEBUG_OUTPUT_ERROR "\n",
       .output .DEBUG_OUTCTL_AMBIENT_TEXT DEBUG_OUTPUT_ERROR "\n",
       .output .DEBUG_OUTCTL_AMBIENT_TEXT DEBUG_OUTPUT_ERROR
         "Traceback (most recent call last):\n",
       .output .DEBUG_OUTCTL_AMBIENT_TEXT DEBUG_OUTPUT_ERROR "Error\n",
       .output .DEBUG_OUTCTL_AMBIENT_TEXT DEBUG_OUTPUT_ERROR "\n"] ∧
    Event.dictClear ∉
      (py (demoEnv [desc 3 9] scriptOpts none valueError) "script.py" (idleHost 3 9)).trace := by
  decide

/-! ## The markup escaping of `printString` -/

theorem replaceAll_append (c : Char) (rep a b : List Char) :
    replaceAll c rep (a ++ b) = replaceAll c rep a ++ replaceAll c rep b := by
  induction a with
  | nil => rfl
  | cons x xs ih =>
    by_cases hx : x = c
    · simp [replaceAll, hx, ih]
    · simp [replaceAll, hx, ih]

theorem escapeDml_cons (c : Char) (cs : List Char) :
    escapeDml (c :: cs) = escapeChar c ++ escapeDml cs := by
  unfold escapeDml escapeChar
  by_cases h1 : c = '&'
  · subst h1
    simp [replaceAll, replaceAll_append]
  · by_cases h2 : c = '<'
    · subst h2
      simp [replaceAll, replaceAll_append]
    · by_cases h3 : c = '>'
      · subst h3
        simp [replaceAll, replaceAll_append]
      · simp [replaceAll, h1, h2, h3]

theorem escapeDml_eq_encode (l : List Char) : escapeDml l = encodeWith escapeChar l := by
  induction l with
  | nil => rfl
  | cons c cs ih => rw [escapeDml_cons, ih]; rfl

theorem decode_lt_step (c : Char) (tail : List Char) :
    replaceSubAux ['&', 'l', 't', ';'] ['<'] 0 (escapeChar c ++ tail)
      = escapeCharAmpGt c ++ replaceSubAux ['&', 'l', 't', ';'] ['<'] 0 tail := by
  by_cases h1 : c = '&'
  · subst h1
    simp [escapeChar, escapeCharAmpGt, replaceSubAux, List.isPrefixOf]
  · by_cases h2 : c = '<'
    · subst h2
      simp [escapeChar, escapeCharAmpGt, replaceSubAux, List.isPrefixOf]
    · by_cases h3 : c = '>'
      · subst h3
        simp [escapeChar, escapeCharAmpGt, replaceSubAux, List.isPrefixOf]
      · simp [escapeChar, escapeCharAmpGt, replaceSubAux, List.isPrefixOf, h1, h2, h3,
          Ne.symm h1]

theorem decode_gt_step (c : Char) (tail : List Char) :
    replaceSubAux ['&', 'g', 't', ';'] ['>'] 0 (escapeCharAmpGt c ++ tail)
      = escapeCharAmp c ++ replaceSubAux ['&', 'g', 't', ';'] ['>'] 0 tail := by
  by_cases h1 : c = '&'
  · subst h1
    simp [escapeCharAmp, escapeCharAmpGt, replaceSubAux, List.isPrefixOf]
  · by_cases h3 : c = '>'
    · subst h3
      simp [escapeCharAmp, escapeCharAmpGt, replaceSubAux, List.isPrefixOf]
    · simp [escapeCharAmp, escapeCharAmpGt, replaceSubAux, List.isPrefixOf, h1, h3, Ne.symm h1]

theorem decode_amp_step (c : Char) (tail : List Char) :
    replaceSubAux ['&', 'a', 'm', 'p', ';'] ['&'] 0 (escapeCharAmp c ++ tail)
      = c :: replaceSubAux ['&', 'a', 'm', 'p', ';'] ['&'] 0 tail := by
  by_cases h1 : c = '&'
  · subst h1
    simp [escapeCharAmp, replaceSubAux, List.isPrefixOf]
  · simp [escapeCharAmp, replaceSubAux, List.isPrefixOf, h1, Ne.symm h1]

/-- Decoding undoes the escaping. -/
theorem decodeDml_escapeDml (l : List Char) : decodeDml (escapeDml l) = l := by
  have p1 : ∀ l, replaceSubAux ['&', 'l', 't', ';'] ['<'] 0 (encodeWith escapeChar l)
      = encodeWith escapeCharAmpGt l := by
    intro l
    induction l with
    | nil => rfl
    | cons c cs ih => rw [encodeWith, decode_lt_step, ih]; rfl
  have p2 : ∀ l, replaceSubAux ['&', 'g', 't', ';'] ['>'] 0 (encodeWith escapeCharAmpGt l)
      = encodeWith escapeCharAmp l := by
    intro l
    induction l with
    | nil => rfl
    | cons c cs ih => rw [encodeWith, decode_gt_step, ih]; rfl
  have p3 : ∀ l, replaceSubAux ['&', 'a', 'm', 'p', ';'] ['&'] 0 (encodeWith escapeCharAmp l)
      = l := by
    intro l
    induction l with
    | nil => rfl
    | cons c cs ih => rw [encodeWith, decode_amp_step, ih]
  rw [escapeDml_eq_encode]
  show replaceSubAux ['&', 'a', 'm', 'p', ';'] ['&'] 0
    (replaceSubAux ['&', 'g', 't', ';'] ['>'] 0
      (replaceSubAux ['&', 'l', 't', ';'] ['<'] 0 (encodeWith escapeChar l))) = l
  rw [p1, p2, p3]

theorem escapeChar_no_angle (c : Char) : '<' ∉ escapeChar c ∧ '>' ∉ escapeChar c := by
  by_cases h1 : c = '&'
  · subst h1
    simp [escapeChar]
  · by_cases h2 : c = '<'
    · subst h2
      simp [escapeChar]
    · by_cases h3 : c = '>'
      · subst h3
        simp [escapeChar]
      · simp [escapeChar, h1, h2, h3, Ne.symm h2, Ne.symm h3]

theorem escapeDml_no_angle (l : List Char) : '<' ∉ escapeDml l ∧ '>' ∉ escapeDml l := by
  induction l with
  | nil => exact ⟨List.not_mem_nil _, List.not_mem_nil _⟩
  | cons c cs ih =>
    rw [escapeDml_cons]
    obtain ⟨h1, h2⟩ := escapeChar_no_angle c
    constructor
    · intro hm
      rcases List.mem_append.mp hm with hm | hm
      · exact h1 hm
      · exact ih.1 hm
    · intro hm
      rcases List.mem_append.mp hm with hm | hm
      · exact h2 hm
      · exact ih.2 hm

/-- On a classic WinDbg that prefers DML, an error line is printed escaped inside the colour
markup. -/
theorem printLine_error_dml (env : Env) (line : List Char) (hc : env.isClassicWindbg = true) :
    printLine env true DEBUG_OUTPUT_ERROR line =
      .output .DEBUG_OUTCTL_AMBIENT_DML DEBUG_OUTPUT_ERROR
        ("<col fg=\"errfg\" bg=\"errbg\">" ++ String.mk (escapeDml line) ++ "</col>\n") := by
  unfold printLine
  rw [if_pos ⟨hc, rfl, rfl⟩]

/-- C13: for every line, the escaping applied by `printString` to error output (every `&`
to `&amp;`, then every `<` to `&lt;`, then every `>` to `&gt;`) leaves no `<` and no `>`, is
undone by the decoding (`&lt;` to `<` and `&gt;` to `>`, then `&amp;` to `&`), and is
injective. -/
theorem escapeDml_roundtrip (line : List Char) :
    '<' ∉ escapeDml line ∧ '>' ∉ escapeDml line ∧
    decodeDml (escapeDml line) = line ∧
    ∀ other, escapeDml line = escapeDml other → line = other := by
  refine ⟨(escapeDml_no_angle line).1, (escapeDml_no_angle line).2,
    decodeDml_escapeDml line, ?_⟩
  intro other heq
  have h := congrArg decodeDml heq
  rw [decodeDml_escapeDml, decodeDml_escapeDml] at h
  exact h

/-- The escaping and the decoding on a line that already looks escaped. -/
theorem escapeDml_sample :
    escapeDml "a<b> &lt; &c".toList = "a&lt;b&gt; &amp;lt; &amp;c".toList ∧
    decodeDml "a&lt;b&gt; &amp;lt; &amp;c".toList = "a<b> &lt; &c".toList := by
  decide

/-- C13 at the line `a<b> &lt; &c`. -/
theorem escapeDml_roundtrip_witness :
    '<' ∉ escapeDml "a<b> &lt; &c".toList ∧ '>' ∉ escapeDml "a<b> &lt; &c".toList ∧
    decodeDml (escapeDml "a<b> &lt; &c".toList) = "a<b> &lt; &c".toList ∧
    ∀ other, escapeDml "a<b> &lt; &c".toList = escapeDml other → "a<b> &lt; &c".toList = other :=
  escapeDml_roundtrip "a<b> &lt; &c".toList

end PykdExt
